import Mathlib

/-!
# Verification of the gdi-mini-node data registry and Beacon query engine

This development is a shallow embedding, in Lean 4, of the parts of the
gdi-mini-node Python code base that the specification claims talk about:

* `src/mini_node/data/registry.py`  — the in-memory `DataRegistry`;
* `src/mini_node/data/fs.py`        — the `RegistryUpdater` event handlers;
* `src/mini_node/beacon/model/variant.py` — `VariantQueryParameters`;
* `src/mini_node/beacon/api/request.py`   — GET-parameter filter parsing;
* `src/mini_node/beacon/service/individuals.py` — the /individuals count
  pipeline;
* `src/mini_node/beacon/service/allele_freq.py` — the /g_variants
  allele-frequency pipeline;
* `src/mini_node/beacon/setup.py`   — censoring and the authentication gate;
* `src/mini_node/oidc.py`           — the LRU+TTL cache and token verifier.

Modelling conventions:

* Python strings are modelled as `List Char` (`Str`); concrete literals are
  written `"...".data`.
* Python `dict` (insertion ordered) is modelled as an association list
  (`PyDict`): `d[k] = v` keeps the position of an existing key and appends
  a missing one, deletion removes the first matching key.
* Python `int` is unbounded, so `Nat`/`Int` are used directly.
* File-system paths are lists of path components (`Path`); `basename` is the
  last component and `dirname` drops it.
* A Python method that mutates its object and may raise is embedded as a
  function returning the new state paired with `Option Str` (the raised
  error), or an `Except Str` result.
* Reads of Parquet files through pyarrow are modelled by an environment
  (`DataEnv`) mapping a path to the list of decoded rows; a missing path
  models a read that raises inside `read_parquet` (which returns `None`).
  The pyarrow predicate push-down is modelled as a row filter, following the
  columnar-reader contract of the specification.  The `problematic_files`
  bookkeeping done inside `read_parquet` only affects the status page, not
  any value computed here, and is not threaded through the query pipeline.
* The external `isoduration` library and the external `PyJWT`/network
  machinery are modelled as oracle parameters (`IsoLib`, `JwtOracle`):
  no claim below depends on their concrete behaviour.
-/

set_option linter.unusedVariables false

namespace MiniNode

/-! ## Python strings -/

/-- Python `str`, modelled as a list of characters. -/
abbrev Str := List Char

/-- The characters Python `str.strip()` removes by default. -/
def isPySpace (c : Char) : Bool :=
  c == ' ' || c == '\t' || c == '\n' || c == '\r' || c == '\x0b' || c == '\x0c'

/-- Python `str.lstrip()`. -/
def pyLStrip (s : Str) : Str := s.dropWhile isPySpace

/-- Drop trailing characters satisfying `p` (used for `rstrip` variants). -/
def dropTrailing (p : Char → Bool) (s : Str) : Str :=
  (s.reverse.dropWhile p).reverse

/-- Python `str.strip()` (both ends). -/
def pyStrip (s : Str) : Str := dropTrailing isPySpace (pyLStrip s)

/-- Python `str.split(sep)` for a one-character separator. -/
def splitOnChar (c : Char) : Str → List Str
  | [] => [[]]
  | x :: xs =>
    match splitOnChar c xs with
    | [] => [[]]
    | h :: t => if x = c then [] :: h :: t else (x :: h) :: t

/-- Index of the first occurrence of `pat` in the haystack. -/
def pyFindAux (pat : Str) : Str → Option Nat
  | [] => if pat.isPrefixOf ([] : Str) then some 0 else none
  | c :: t =>
    if pat.isPrefixOf (c :: t) then some 0 else (pyFindAux pat t).map (· + 1)

/-- Python `str.find`: index of the first occurrence (`none` models `-1`). -/
def pyFind (hay pat : Str) : Option Nat := pyFindAux pat hay

/-- Index of the last occurrence of `pat` in the haystack. -/
def pyRIndexAux (pat : Str) : Str → Option Nat
  | [] => if pat.isPrefixOf ([] : Str) then some 0 else none
  | c :: t =>
    match pyRIndexAux pat t with
    | some i => some (i + 1)
    | none => if pat.isPrefixOf (c :: t) then some 0 else none

/-- Python `str.rindex`: index of the last occurrence; `none` models the
`ValueError` that `rindex` raises when the substring is absent. -/
def pyRIndex (hay pat : Str) : Option Nat := pyRIndexAux pat hay

/-- Python slice `s[a:b]` for `a ≤ b` (the only use sites guarantee it). -/
def pySlice (s : Str) (a b : Nat) : Str := (s.drop a).take (b - a)

/-- Rendering for f-string interpolation of an optional string
(`None` renders as `"None"`). -/
def pyStrOpt (o : Option Str) : Str := o.getD "None".data

/-- Digits of a natural number, used for f-string interpolation of ints. -/
def natStr (n : Nat) : Str := (Nat.repr n).data

/-- Parse helper for Python `int(str)`: `none` models `ValueError`. -/
def pyInt? (s : Str) : Option Int :=
  let core : Str → Option Int := fun t =>
    if t = [] then none
    else if t.all (·.isDigit) then
      some (Int.ofNat (t.foldl (fun n c => n * 10 + (c.toNat - '0'.toNat)) 0))
    else none
  match s with
  | '-' :: t => (core t).map (fun n => -n)
  | t => core t

/-! ## Python dictionaries -/

/-- A Python `dict`: insertion-ordered association list. -/
abbrev PyDict (K V : Type) := List (K × V)

namespace PyDict

variable {K V : Type} [DecidableEq K]

/-- `d.get(k)`: value of the first (unique, in maintained states) entry. -/
def get? : PyDict K V → K → Option V
  | [], _ => none
  | (k', v) :: t, k => if k' = k then some v else get? t k

/-- `k in d`. -/
def hasKey (d : PyDict K V) (k : K) : Bool := (d.get? k).isSome

/-- `d[k] = v`: replace in place when the key exists, else append. -/
def set : PyDict K V → K → V → PyDict K V
  | [], k, v => [(k, v)]
  | (k', v') :: t, k, v =>
    if k' = k then (k, v) :: t else (k', v') :: set t k v

/-- `del d[k]` (no-op when the key is absent, matching guarded deletes). -/
def erase : PyDict K V → K → PyDict K V
  | [], _ => []
  | (k', v') :: t, k => if k' = k then t else (k', v') :: erase t k

/-- The keys, in order. -/
def keys (d : PyDict K V) : List K := d.map Prod.fst

/-- Apply `f` to every value in place. -/
def mapValues (f : V → V) (d : PyDict K V) : PyDict K V :=
  d.map (fun kv => (kv.1, f kv.2))

end PyDict

/-! ## Paths -/

/-- A filesystem path, as its list of components. -/
abbrev Path := List Str

/-- `os.path.basename` / `pathlib.Path.name`. -/
def pathBase (p : Path) : Str := p.getLast?.getD []

/-- `os.path.dirname` / `pathlib.Path.parent`. -/
def pathDir (p : Path) : Path := p.dropLast

/-! ## `data/registry.py`: the data model -/

/-- `BeaconAssembly` (`registry.py`, a closed, case-sensitive `StrEnum`). -/
inductive BeaconAssembly
  | GRCh37
  | GRCh38
deriving DecidableEq

/-- The string value of a `BeaconAssembly` member. -/
def BeaconAssembly.str : BeaconAssembly → Str
  | .GRCh37 => "GRCh37".data
  | .GRCh38 => "GRCh38".data

/-- `BeaconAssembly(s)`: `none` models the `ValueError` raised on any other
string. -/
def parseAssembly (s : Str) : Option BeaconAssembly :=
  if s = "GRCh37".data then some .GRCh37
  else if s = "GRCh38".data then some .GRCh38
  else none

/-- Python `s in BeaconAssembly` membership test. -/
def assemblyMem (s : Str) : Bool := (parseAssembly s).isSome

/-- `POS_DIVIDER` (`registry.py`). -/
def POS_DIVIDER : Nat := 10000000

/-- `FdpCatalog` (`fdp/config.py`); dates are kept as strings. -/
structure FdpCatalog where
  title : Str
  description : Str
  since : Option Str
deriving DecidableEq

/-- `FdpDataset` (`fdp/config.py`, the `metadata.yaml` model).  The pydantic
model declares `catalog_id : str`, but `DataRegistry.add_dataset` explicitly
branches on `catalog_id is None`, so the registry-facing type is optional. -/
structure FdpDataset where
  title : Str
  description : Str
  catalog_id : Option Str
  keywords : Option (List Str)
  since : Str
  updated : Str
  min_age : Option Int
  max_age : Option Int
  individual_count : Option Int
  record_count : Int
  data_provider_name : Str
deriving DecidableEq

/-- `FdpData` (`registry.py`). -/
structure FdpData where
  catalogs : PyDict Str FdpCatalog
  datasets : PyDict Str FdpDataset
  catalog_datasets : PyDict Str (List Str)
deriving DecidableEq

/-- `BeaconDataset` (`registry.py`). -/
structure BeaconDataset where
  dataset_id : Str
  individuals_parquet : Option Path
  chr_group_files : PyDict Str Path
deriving DecidableEq

/-- `BeaconData` (`registry.py`): one per Beacon personality. -/
structure BeaconData where
  assemblies : PyDict BeaconAssembly (List BeaconDataset)
deriving DecidableEq

/-- `DataRegistry` (`registry.py`), state part. -/
structure DataRegistry where
  fdp : FdpData
  aggregated_beacon : BeaconData
  sensitive_beacon : BeaconData
  problematic_files : PyDict Path Str
deriving DecidableEq

/-- `DataRegistry.__init__(catalogs)`. -/
def initRegistry (catalogs : PyDict Str FdpCatalog) : DataRegistry :=
  { fdp := { catalogs := catalogs, datasets := [], catalog_datasets := [] }
    aggregated_beacon := { assemblies := [] }
    sensitive_beacon := { assemblies := [] }
    problematic_files := [] }

/-! ## `data/registry.py`: queries -/

/-- The chr-group key `f"{chrom}.{group}"` with `group = pos // POS_DIVIDER`. -/
def chrGroupKey (chrom : Str) (pos : Nat) : Str :=
  chrom ++ '.' :: natStr (pos / POS_DIVIDER)

/-- Loop body of `BeaconData.get_dataset_individuals`. -/
def gdiStep (chr_group : Option Str) (acc : PyDict Str (Path × Option Path))
    (d : BeaconDataset) : PyDict Str (Path × Option Path) :=
  match d.individuals_parquet with
  | none => acc
  | some parquet1 =>
    match chr_group with
    | some g =>
      match d.chr_group_files.get? g with
      | none => acc
      | some parquet2 => acc.set d.dataset_id (parquet1, some parquet2)
    | none => acc.set d.dataset_id (parquet1, none)

/-- `BeaconData.get_dataset_individuals` (`registry.py` lines 54-95).  Note
that the source's `for assembly in self.assemblies` loop shadows the
`assembly` parameter: the parameter only gates the early return, the loop
visits every assembly. -/
def BeaconData.get_dataset_individuals (bd : BeaconData)
    (assembly : Option BeaconAssembly) (chrom : Option Str)
    (pos : Option Nat) : PyDict Str (Path × Option Path) :=
  let missing : Bool :=
    match assembly with
    | some a => !(bd.assemblies.hasKey a)
    | none => false
  if missing then []
  else
    let chr_group : Option Str :=
      match assembly, chrom, pos with
      | some _, some c, some p => some (chrGroupKey c p)
      | _, _, _ => none
    bd.assemblies.foldl
      (fun acc kv => kv.2.foldl (gdiStep chr_group) acc) []

/-- `BeaconData.get_dataset_files` (`registry.py` lines 97-115). -/
def BeaconData.get_dataset_files (bd : BeaconData) (assembly : BeaconAssembly)
    (chrom : Str) (pos : Nat) : PyDict Str Path :=
  match bd.assemblies.get? assembly with
  | none => []
  | some datasets =>
    let chr_group := chrGroupKey chrom pos
    datasets.foldl
      (fun acc d =>
        match d.chr_group_files.get? chr_group with
        | none => acc
        | some file_path => acc.set d.dataset_id file_path) []

/-! ## `data/registry.py`: mutations -/

/-- `DataRegistry.forget_issues_with`. -/
def DataRegistry.forget_issues_with (reg : DataRegistry) (file_path : Path) :
    DataRegistry :=
  { reg with problematic_files := reg.problematic_files.erase file_path }

/-- `DataRegistry.add_dataset` (`registry.py` lines 149-171).  When
`catalog_id` is `None` the method stores the props and returns WITHOUT
touching the catalog lists. -/
def DataRegistry.add_dataset (reg : DataRegistry) (dataset_id : Str)
    (props : FdpDataset) : DataRegistry :=
  let fdp1 := { reg.fdp with datasets := reg.fdp.datasets.set dataset_id props }
  match props.catalog_id with
  | none => { reg with fdp := fdp1 }
  | some catalog_id =>
    let cds := fdp1.catalog_datasets.mapValues (fun ids => ids.erase dataset_id)
    let cds := if cds.hasKey catalog_id then cds else cds.set catalog_id []
    let cds := cds.set catalog_id (((cds.get? catalog_id).getD []) ++ [dataset_id])
    { reg with fdp := { fdp1 with catalog_datasets := cds } }

/-- Removal of every `BeaconDataset` carrying `dataset_id` from every
assembly list (the `for dataset in list(datasets): ... remove` loops). -/
def purgeDatasetId (bd : BeaconData) (dataset_id : Str) : BeaconData :=
  { assemblies :=
      bd.assemblies.mapValues
        (fun ds => ds.filter (fun d => d.dataset_id ≠ dataset_id)) }

/-- `DataRegistry.remove_dataset` (`registry.py` lines 173-201). -/
def DataRegistry.remove_dataset (reg : DataRegistry) (dataset_id : Str)
    (also_beacon_data : Bool) : DataRegistry :=
  let cds := reg.fdp.catalog_datasets.mapValues (fun ids => ids.erase dataset_id)
  let dsets := reg.fdp.datasets.erase dataset_id
  let reg1 :=
    { reg with fdp := { reg.fdp with catalog_datasets := cds, datasets := dsets } }
  if !also_beacon_data then reg1
  else
    { reg1 with
      aggregated_beacon := purgeDatasetId reg1.aggregated_beacon dataset_id
      sensitive_beacon := purgeDatasetId reg1.sensitive_beacon dataset_id }

/-- The per-`BeaconData` effect of `remove_beacon_dataset`: skip when the
assembly key is absent, else drop every dataset with this id from the
assembly's list. -/
def removeBeaconUpd (dataset_id : Str) (assembly : BeaconAssembly)
    (bd : BeaconData) : BeaconData :=
  if !(bd.assemblies.hasKey assembly) then bd
  else
    { assemblies :=
        bd.assemblies.set assembly
          (((bd.assemblies.get? assembly).getD []).filter
            (fun d => d.dataset_id ≠ dataset_id)) }

/-- `DataRegistry.remove_beacon_dataset` (`registry.py` lines 203-213): for
BOTH personalities, drop every dataset with this id from the given assembly's
list. -/
def DataRegistry.remove_beacon_dataset (reg : DataRegistry) (dataset_id : Str)
    (assembly : BeaconAssembly) : DataRegistry :=
  { reg with
    aggregated_beacon := removeBeaconUpd dataset_id assembly reg.aggregated_beacon
    sensitive_beacon := removeBeaconUpd dataset_id assembly reg.sensitive_beacon }

/-- The two Beacon personalities. -/
inductive Personality
  | aggregated
  | sensitive
deriving DecidableEq

/-- The other personality. -/
def Personality.other : Personality → Personality
  | .aggregated => .sensitive
  | .sensitive => .aggregated

/-- Read a personality's `BeaconData`. -/
def DataRegistry.beacon (reg : DataRegistry) : Personality → BeaconData
  | .aggregated => reg.aggregated_beacon
  | .sensitive => reg.sensitive_beacon

/-- Write a personality's `BeaconData`. -/
def DataRegistry.setBeacon (reg : DataRegistry) (p : Personality)
    (bd : BeaconData) : DataRegistry :=
  match p with
  | .aggregated => { reg with aggregated_beacon := bd }
  | .sensitive => { reg with sensitive_beacon := bd }

/-- Basename routing of `_resolve_beacon_dataset` (`registry.py` 277-286). -/
def routeFilename (filename : Str) : Option Personality :=
  if "allele-freq-".data.isPrefixOf filename then some .aggregated
  else if "individuals-".data.isPrefixOf filename then some .sensitive
  else if filename = "individuals.parquet".data then some .sensitive
  else none

/-- A fresh `BeaconDataset(dataset_id)`. -/
def freshDataset (dataset_id : Str) : BeaconDataset :=
  { dataset_id := dataset_id, individuals_parquet := none, chr_group_files := [] }

/-- Append a fresh dataset when no dataset with this id is in the list
(`_resolve_beacon_dataset`, assembly branch). -/
def ensureDatasetInList (l : List BeaconDataset) (dataset_id : Str) :
    List BeaconDataset :=
  if l.any (fun d => d.dataset_id = dataset_id) then l
  else l ++ [freshDataset dataset_id]

/-- The state effect of `_resolve_beacon_dataset(filename, assembly, id)`
with a non-`None` assembly: materialise the assembly key and the dataset. -/
def ensureBeaconDataset (bd : BeaconData) (assembly : BeaconAssembly)
    (dataset_id : Str) : BeaconData :=
  let bd1 :=
    if bd.assemblies.hasKey assembly then bd
    else { assemblies := bd.assemblies.set assembly [] }
  { assemblies :=
      bd1.assemblies.set assembly
        (ensureDatasetInList ((bd1.assemblies.get? assembly).getD []) dataset_id) }

/-- First dataset with the given id (`for dataset in datasets: if ...`). -/
def firstById (l : List BeaconDataset) (dataset_id : Str) :
    Option BeaconDataset :=
  l.find? (fun d => d.dataset_id = dataset_id)

/-- Mutate (in place) the first dataset with the given id. -/
def updateFirstById : List BeaconDataset → Str →
    (BeaconDataset → BeaconDataset) → List BeaconDataset
  | [], _, _ => []
  | d :: t, dataset_id, f =>
    if d.dataset_id = dataset_id then f d :: t
    else d :: updateFirstById t dataset_id f

/-- `DataRegistry._resolve_chr_group` (`registry.py` lines 308-312).
`str.rindex` raises `ValueError` when the substring is absent; the `.ok none`
result is the explicit `None` returned when `0 < start < end` fails. -/
def resolve_chr_group (filename : Str) : Except Str (Option Str) :=
  match pyRIndex filename "chr".data with
  | none => .error "ValueError: substring not found".data
  | some i =>
    let start := i + 3
    match pyRIndex filename ".".data with
    | none => .error "ValueError: substring not found".data
    | some e =>
      .ok (if 0 < start ∧ start < e then some (pySlice filename start e) else none)

/-- `DataRegistry.add_parquet` (`registry.py` lines 215-242).  Returns the
new registry and, in the second component, the error message of an
uncaught exception (`none` = returned normally). -/
def DataRegistry.add_parquet (reg : DataRegistry) (dataset_id : Str)
    (assembly : BeaconAssembly) (file_path : Path) :
    DataRegistry × Option Str :=
  let filename := pathBase file_path
  match routeFilename filename with
  | none => (reg, none)
  | some personality =>
    let bd1 := ensureBeaconDataset (reg.beacon personality) assembly dataset_id
    let reg1 := reg.setBeacon personality bd1
    let lst := (bd1.assemblies.get? assembly).getD []
    if filename = "individuals.parquet".data then
      (reg1.setBeacon personality
        { assemblies :=
            bd1.assemblies.set assembly
              (updateFirstById lst dataset_id
                (fun d => { d with individuals_parquet := some file_path })) },
       none)
    else
      match resolve_chr_group filename with
      | .error e => (reg1, some e)
      | .ok none => (reg1, none)
      | .ok (some chr_group) =>
        (reg1.setBeacon personality
          { assemblies :=
              bd1.assemblies.set assembly
                (updateFirstById lst dataset_id
                  (fun d =>
                    { d with
                      chr_group_files :=
                        d.chr_group_files.set chr_group file_path })) },
         none)

/-- `DataRegistry.remove_parquet` (`registry.py` lines 244-269).  The
assembly is parsed from the parent directory (raising `ValueError` on any
other name); `_resolve_beacon_dataset` materialises the dataset before the
file entry is removed; the final emptiness check runs `remove_beacon_dataset`
on BOTH personalities. -/
def DataRegistry.remove_parquet (reg : DataRegistry) (dataset_id : Str)
    (file_path : Path) : DataRegistry × Option Str :=
  let filename := pathBase file_path
  match parseAssembly (pathBase (pathDir file_path)) with
  | none => (reg, some "ValueError: not a valid BeaconAssembly".data)
  | some assembly =>
    match routeFilename filename with
    | none => (reg, none)
    | some personality =>
      let bd1 := ensureBeaconDataset (reg.beacon personality) assembly dataset_id
      let reg1 := reg.setBeacon personality bd1
      let lst := (bd1.assemblies.get? assembly).getD []
      let mutation : Except Str (BeaconDataset → BeaconDataset) :=
        if filename = "individuals.parquet".data then
          .ok (fun d => { d with individuals_parquet := none })
        else
          match resolve_chr_group filename with
          | .error e => .error e
          | .ok none => .ok (fun d => d)
          | .ok (some chr_group) =>
            .ok (fun d =>
              { d with chr_group_files := d.chr_group_files.erase chr_group })
      match mutation with
      | .error e => (reg1, some e)
      | .ok f =>
        let lst2 := updateFirstById lst dataset_id f
        let reg2 :=
          reg1.setBeacon personality
            { assemblies := bd1.assemblies.set assembly lst2 }
        match firstById lst2 dataset_id with
        | some d =>
          if d.individuals_parquet = none ∧ d.chr_group_files = [] then
            (reg2.remove_beacon_dataset dataset_id assembly, none)
          else (reg2, none)
        | none => (reg2, none)

/-! ## `data/fs.py`: the registry updater (removal paths) -/

/-- `RegistryUpdater._resolve_dataset`: the metadata file's grandparent must
be the data directory; the dataset id is the parent directory's name. -/
def resolveDataset (data_dir : Path) (file_path : Path) : Option Str :=
  let dataset_dir := pathDir file_path
  if pathDir dataset_dir = data_dir then some (pathBase dataset_dir) else none

/-- `RegistryUpdater._resolve_dataset_assembly`. -/
def resolveDatasetAssembly (data_dir : Path) (file_path : Path) :
    Option (Str × BeaconAssembly) :=
  let assembly_dir := pathDir file_path
  match parseAssembly (pathBase assembly_dir) with
  | none => none
  | some assembly =>
    let dataset_dir := pathDir assembly_dir
    if pathDir dataset_dir = data_dir then
      some (pathBase dataset_dir, assembly)
    else none

/-- `RegistryUpdater._on_removed_metadata` (`fs.py` lines 110-117): forget
recorded issues for the path and call
`remove_dataset(dataset_id, also_beacon_data=True)`. -/
def onRemovedMetadata (data_dir : Path) (reg : DataRegistry)
    (file_path : Path) : DataRegistry :=
  match resolveDataset data_dir file_path with
  | none => reg
  | some dataset_id =>
    (reg.forget_issues_with file_path).remove_dataset dataset_id true

/-- `RegistryUpdater._on_removed_parquet` (`fs.py` lines 127-134). -/
def onRemovedParquet (data_dir : Path) (reg : DataRegistry)
    (file_path : Path) : DataRegistry × Option Str :=
  match resolveDatasetAssembly data_dir file_path with
  | none => (reg, none)
  | some (dataset_id, _) =>
    (reg.forget_issues_with file_path).remove_parquet dataset_id file_path

/-- `RegistryUpdater.on_removed_file` (`fs.py` lines 90-94). -/
def onRemovedFile (data_dir : Path) (reg : DataRegistry) (file_path : Path) :
    DataRegistry × Option Str :=
  if pathBase file_path = "metadata.yaml".data then
    (onRemovedMetadata data_dir reg file_path, none)
  else if ".parquet".data.isSuffixOf (pathBase file_path) then
    onRemovedParquet data_dir reg file_path
  else (reg, none)

/-! ## `beacon/model/variant.py`: `VariantQueryParameters` -/

/-- `VariantQueryParameters` after pydantic validation: `start`/`end` are
already split into lists of non-negative integers.  The field `end` is
renamed `endPos` (`end` is a Lean keyword). -/
structure VariantQueryParameters where
  assemblyId : Option Str
  geneId : Option Str
  mateName : Option Str
  aminoacidChange : Option Str
  genomicAlleleShortForm : Option Str
  referenceName : Option Str
  referenceBases : Option Str
  alternateBases : Option Str
  start : Option (List Nat)
  endPos : Option (List Nat)
  variantType : Option Str
  variantMinLength : Option Nat
  variantMaxLength : Option Nat
deriving DecidableEq

/-- An all-`None` parameter record, for building concrete queries. -/
def noParams : VariantQueryParameters :=
  { assemblyId := none, geneId := none, mateName := none,
    aminoacidChange := none, genomicAlleleShortForm := none,
    referenceName := none, referenceBases := none, alternateBases := none,
    start := none, endPos := none, variantType := none,
    variantMinLength := none, variantMaxLength := none }

/-- `has_values` (`variant.py` lines 49-50): the dump without `None` fields
is non-empty, i.e. some field is set. -/
def VariantQueryParameters.has_values (p : VariantQueryParameters) : Bool :=
  p.assemblyId.isSome || p.geneId.isSome || p.mateName.isSome ||
  p.aminoacidChange.isSome || p.genomicAlleleShortForm.isSome ||
  p.referenceName.isSome || p.referenceBases.isSome ||
  p.alternateBases.isSome || p.start.isSome || p.endPos.isSome ||
  p.variantType.isSome || p.variantMinLength.isSome ||
  p.variantMaxLength.isSome

/-- `has_unsupported_values` (`variant.py` lines 52-59).  Note that the
source lists `alternateBases` among the unsupported fields. -/
def VariantQueryParameters.has_unsupported_values
    (p : VariantQueryParameters) : Bool :=
  p.geneId.isSome || p.mateName.isSome || p.aminoacidChange.isSome ||
  p.genomicAlleleShortForm.isSome || p.alternateBases.isSome ||
  p.variantMinLength.isSome || p.variantMaxLength.isSome

/-- `has_sufficient_values` (`variant.py` lines 61-67). -/
def VariantQueryParameters.has_sufficient_values
    (p : VariantQueryParameters) : Bool :=
  match p.assemblyId with
  | none => false
  | some a =>
    assemblyMem a && p.referenceName.isSome && p.referenceBases.isSome &&
    p.alternateBases.isSome && p.start.isSome

/-- `is_not_sufficient` (`variant.py` lines 69-70), transcribed verbatim:
`not has_unsupported_values() and has_sufficient_values()`. -/
def VariantQueryParameters.is_not_sufficient
    (p : VariantQueryParameters) : Bool :=
  !p.has_unsupported_values && p.has_sufficient_values

/-- `params.start[0]`.  Every call site is reached only when `start` is a
validated non-empty list; the default `0` is never used there. -/
def startZero (p : VariantQueryParameters) : Nat :=
  (p.start.getD []).headD 0

/-! ## `beacon/model/common.py`: request model -/

/-- `FilterOperator` (`common.py` lines 28-34), in declaration order. -/
inductive FilterOperator
  | EQUAL
  | NOT_EQUAL
  | LESS
  | LESS_OR_EQUAL
  | GREATER
  | GREATER_OR_EQUAL
deriving DecidableEq

/-- The string value of a `FilterOperator` member. -/
def FilterOperator.str : FilterOperator → Str
  | .EQUAL => "=".data
  | .NOT_EQUAL => "!".data
  | .LESS => "<".data
  | .LESS_OR_EQUAL => "<=".data
  | .GREATER => ">".data
  | .GREATER_OR_EQUAL => ">=".data

/-- Iteration order of `for operator in FilterOperator` (declaration order
of the `StrEnum`). -/
def filterOperatorOrder : List FilterOperator :=
  [.EQUAL, .NOT_EQUAL, .LESS, .LESS_OR_EQUAL, .GREATER, .GREATER_OR_EQUAL]

/-- `IncludeResponses` (`common.py`). -/
inductive IncludeResponses
  | ALL
  | HIT
  | MISS
  | NONE
deriving DecidableEq

/-- `Granularity` (`model/enums.py`). -/
inductive Granularity
  | boolean
  | count
  | record
deriving DecidableEq

/-- `QueryFilter` (`common.py` lines 49-55). -/
structure QueryFilter where
  id : Str
  includeDescendantTerms : Bool
  similarity : Option Str
  operator : Option FilterOperator
  value : Option Str
  scope : Option Str
deriving DecidableEq

/-- A `QueryFilter` with the pydantic defaults filled in. -/
def mkQueryFilter (id : Str) (operator : Option FilterOperator)
    (value : Option Str) (scope : Option Str) : QueryFilter :=
  { id := id, includeDescendantTerms := true, similarity := none,
    operator := operator, value := value, scope := scope }

/-- `Pagination` (`common.py`): only `limit`/`skip` are read by services. -/
structure Pagination where
  limit : Option Nat
  skip : Option Nat
deriving DecidableEq

/-- The `requestParameters` union
`VariantQueryParameters | list[VariantQueryParameters] | None`. -/
inductive RequestParams
  | noneP
  | single (v : VariantQueryParameters)
  | listP (vs : List VariantQueryParameters)
deriving DecidableEq

/-- `BeaconQuery` (`common.py` lines 58-67). -/
structure BeaconQuery where
  requestParameters : RequestParams
  filters : Option (List QueryFilter)
  includeResultsetResponses : Option IncludeResponses
  pagination : Option Pagination
  requestedGranularity : Option Granularity
  testMode : Option Bool
deriving DecidableEq

/-- An all-default `BeaconQuery`. -/
def emptyQuery : BeaconQuery :=
  { requestParameters := .noneP, filters := none,
    includeResultsetResponses := none, pagination := none,
    requestedGranularity := none, testMode := none }

/-- `BeaconRequest` (`common.py`): the `meta` block carries nothing the
query services read, so only the query is kept.  The services under
verification access `request.query` which is always set on these paths. -/
structure BeaconRequest where
  query : BeaconQuery
deriving DecidableEq

/-- `ResultSet` (`model/framework/result_sets.py`).  `exists` is a Lean
keyword and is rendered `exists_`; `results` is always the empty array on
the /individuals path, so its element type is irrelevant. -/
structure ResultSet where
  id : Str
  setType : Str
  exists_ : Bool
  resultsCount : Nat
  results : List Unit
deriving DecidableEq

/-- `ResultSet(id=..., resultsCount=..., results=EMPTY_ARRAY)` with the
pydantic defaults `setType="dataset"`, `exists=True`. -/
def mkResultSet (id : Str) (resultsCount : Nat) : ResultSet :=
  { id := id, setType := "dataset".data, exists_ := true,
    resultsCount := resultsCount, results := [] }

/-- `ResultSets` (`model/framework/result_sets.py`). -/
structure ResultSets where
  resultSets : List ResultSet
deriving DecidableEq

/-- `ResultSets()`: the empty result-set container. -/
def emptyResultSets : ResultSets := { resultSets := [] }

/-! ## `beacon/api/request.py`: GET filter parsing -/

/-- Inner loop of `parse_filters`: try the operators in enumeration order;
`item.find(op)` must exceed 1 for a match (so the id has length at least 2;
an absent operator gives `-1`, which also fails the `> 1` check). -/
def findOp (item : Str) : List FilterOperator → Option (FilterOperator × Nat)
  | [] => none
  | op :: rest =>
    match pyFind item op.str with
    | some p => if p > 1 then some (op, p) else findOp item rest
    | none => findOp item rest

/-- Replace `_` by `:` (Python `str.replace("_", ":")`). -/
def underscoreToColon (s : Str) : Str :=
  s.map (fun c => if c = '_' then ':' else c)

/-- One item of `parse_filters` (`request.py` lines 95-110). -/
def parseFilterItem (item : Str) : QueryFilter :=
  match findOp item filterOperatorOrder with
  | some (op, pos) =>
    mkQueryFilter
      (underscoreToColon (dropTrailing (· == ':') (item.take pos)))
      (some op)
      (some (pyLStrip (item.drop (pos + 1))))
      none
  | none => mkQueryFilter item none none none

/-- `parse_filters` (`request.py` lines 87-112), applied to the raw value of
the `filters` query parameter (`none` = parameter absent). -/
def parse_filters (value : Option Str) : Option (List QueryFilter) :=
  match value with
  | none => none
  | some v =>
    if pyStrip v = [] then none
    else
      some ((((splitOnChar ',' v).map pyStrip).filter (· ≠ [])).map
        parseFilterItem)

/-! ## The columnar-file environment -/

/-- One row of an `individuals.parquet` file (`INDEX, SEX, AGE`). -/
structure IndRow where
  index : Int
  sex : Str
  age : Option Str
deriving DecidableEq

/-- One row of an `individuals-chr<K>.parquet` file
(`POS, REF, ALT, VT, INDIVIDUALS`). -/
structure VcfIndRow where
  pos : Nat
  ref : Str
  alt : Str
  vt : Str
  individuals : Str
deriving DecidableEq

/-- One row of an `allele-freq-chr<K>.parquet` file.  `AF` is `float64` in
the file; no claim depends on float semantics, so it is carried as a
rational. -/
structure AfRow where
  pos : Nat
  ref : Str
  alt : Str
  vt : Str
  population : Str
  af : Rat
  ac : Int
  ac_het : Int
  ac_hom : Int
  ac_hemi : Int
  an : Int
deriving DecidableEq

/-- The world the query services read: the process-wide `DATA` registry's
two `BeaconData` views plus the decoded contents of the columnar files.
A path missing from the respective map models a `read_parquet` call whose
pyarrow read raised (the helper then returns `None`). -/
structure DataEnv where
  aggregated : BeaconData
  sensitive : BeaconData
  indFiles : PyDict Path (List IndRow)
  vcfIndFiles : PyDict Path (List VcfIndRow)
  afFiles : PyDict Path (List AfRow)
deriving DecidableEq

/-- The external `isoduration` library: `parse_duration` (with `none` for
`ValueError`) and the comparison operators of its `Duration` values.  The
value type is kept abstract as the normalised token.  No claim in this
development depends on the concrete behaviour. -/
structure IsoLib where
  parse_duration : Str → Option Str
  ltB : Str → Str → Bool
  leB : Str → Str → Bool
  eqB : Str → Str → Bool

/-! ## `beacon/service/_parquet.py` -/

/-- `parquet_filter_for_variants` as a row predicate for the individuals
variant files: `POS == start[0] ∧ REF ∧ ALT ∧ VT == (variantType or "SNP")`.
`x or "SNP"` in Python falls through on `None` and on the empty string. -/
def pyOrSNP (v : Option Str) : Str :=
  match v with
  | some s => if s = [] then "SNP".data else s
  | none => "SNP".data

/-- The predicate on `VcfIndRow` rows (a comparison with a `None` operand
never matches in pyarrow, in line with the sufficiency precondition of every
call site). -/
def vcfIndMatch (p : VariantQueryParameters) (r : VcfIndRow) : Bool :=
  r.pos = startZero p &&
  some r.ref = p.referenceBases &&
  some r.alt = p.alternateBases &&
  r.vt = pyOrSNP p.variantType

/-- The same predicate on `AfRow` rows. -/
def afMatch (p : VariantQueryParameters) (r : AfRow) : Bool :=
  r.pos = startZero p &&
  some r.ref = p.referenceBases &&
  some r.alt = p.alternateBases &&
  r.vt = pyOrSNP p.variantType

/-! ## `beacon/service/individuals.py` -/

/-- `IndividualFilter` after `__init__`: the sex ontology value is already
converted; `_age_compare` is present exactly when both an age and an
operator were given.  The `age` display string is only logged and is not
modelled. -/
structure IndividualFilter where
  sex : Option Str
  ageFilter : Option (Str × FilterOperator)
deriving DecidableEq

/-- `IndividualFilter._convert_from_ontology_key`. -/
def convertFromOntologyKey (provided_value : Option Str) : Option Str :=
  match provided_value with
  | none => none
  | some v =>
    if v = [] then none
    else if v = "NCIT:C20197".data then some "M".data
    else if v = "NCIT:C16576".data then some "F".data
    else some "UNKNOWN".data

/-- `IndividualFilter(sex, age, operator)`. -/
def mkIndividualFilter (sex : Option Str) (age : Option Str)
    (operator : Option FilterOperator) : IndividualFilter :=
  { sex := convertFromOntologyKey sex
    ageFilter :=
      match age, operator with
      | some a, some o => some (a, o)
      | _, _ => none }

/-- `IndividualFilter.matches_all`. -/
def IndividualFilter.matches_all (f : IndividualFilter) : Bool :=
  f.sex.isNone && f.ageFilter.isNone

/-- `IndividualFilter.has_age_filter`. -/
def IndividualFilter.has_age_filter (f : IndividualFilter) : Bool :=
  f.ageFilter.isSome

/-- `_age_matcher(age, operator)` applied to a parsed file value `x`:
`age OP x`. -/
def ageMatcherApply (lib : IsoLib) (age : Str) (op : FilterOperator)
    (x : Str) : Bool :=
  match op with
  | .LESS => lib.ltB age x
  | .GREATER => lib.ltB x age
  | .LESS_OR_EQUAL => lib.leB age x
  | .GREATER_OR_EQUAL => lib.leB x age
  | .EQUAL => lib.eqB age x
  | .NOT_EQUAL => !lib.eqB age x

/-- `IndividualFilter.matches_age` (`individuals.py` lines 65-80): a `None`
or non-`P` value never matches; a `ValueError` from `parse_duration` is
caught and yields `False`. -/
def IndividualFilter.matches_age (f : IndividualFilter) (lib : IsoLib)
    (file_age : Option Str) : Bool :=
  match f.ageFilter with
  | none => true
  | some (age, op) =>
    match file_age with
    | none => false
    | some fa =>
      if !("P".data.isPrefixOf fa) then false
      else
        match lib.parse_duration fa with
        | none => false
        | some x => ageMatcherApply lib age op x

/-- `resolve_variant_filter` (`individuals.py` lines 163-178): unwrap a
non-empty list, then require a `VariantQueryParameters` instance with at
least one set field. -/
def resolve_variant_filter (request : BeaconRequest) :
    Option VariantQueryParameters :=
  match request.query.requestParameters with
  | .single p => if p.has_values then some p else none
  | .listP (p :: _) => if p.has_values then some p else none
  | .listP [] => none
  | .noneP => none

/-- Loop of `resolve_filters` (`individuals.py` lines 214-245), folding the
`sex` / `age_value` / `age_operator` accumulators.  A missing `value` on the
age filter makes the source raise inside `parse_duration`; both that and a
`ValueError` abort filter resolution with no results, modelled as `none`. -/
def resolveFiltersLoop (lib : IsoLib) :
    List QueryFilter → Option Str → Option Str → Option FilterOperator →
    Option (Option Str × Option Str × Option FilterOperator)
  | [], sex, age, op => some (sex, age, op)
  | f :: rest, sex, age, op =>
    if f.id ≠ "sex".data ∧ f.id ≠ "diseases.ageOfOnset.iso8601duration".data
    then none
    else if f.scope ≠ some "individual".data then none
    else if f.id = "sex".data then resolveFiltersLoop lib rest f.value age op
    else
      match f.value with
      | none => none
      | some v =>
        match lib.parse_duration v with
        | none => none
        | some d => resolveFiltersLoop lib rest sex (some d) f.operator

/-- `resolve_filters` (`individuals.py` lines 181-247). -/
def resolve_filters (lib : IsoLib) (request : BeaconRequest) :
    Option IndividualFilter :=
  match resolveFiltersLoop lib (request.query.filters.getD []) none none none
  with
  | none => none
  | some (sex, age, op) => some (mkIndividualFilter sex age op)

/-- Insert into a Python `set` modelled as a duplicate-free list. -/
def setInsert (s : List Int) (x : Int) : List Int :=
  if s.contains x then s else s ++ [x]

/-- `for i in range(start, end + 1): results.add(i)`. -/
def setInsertRange (s : List Int) (a b : Int) : List Int :=
  (List.range (b + 1 - a).toNat).foldl (fun acc k => setInsert acc (a + k)) s

/-- `parse_range` (`individuals.py` lines 394-407): `none` models the
`ValueError` that `int(...)` or unpacking `item.split("-")` raises on
malformed content. -/
def parse_range (ranges_str : Str) : Option (List Int) :=
  go (splitOnChar ',' ranges_str) []
where
  go : List Str → List Int → Option (List Int)
  | [], acc => some acc
  | item :: rest, acc =>
    if item.contains '-' then
      match splitOnChar '-' item with
      | [a, b] =>
        match pyInt? a, pyInt? b with
        | some x, some y => go rest (setInsertRange acc x y)
        | _, _ => none
      | _ => none
    else
      match pyInt? item with
      | some x => go rest (setInsert acc x)
      | none => none

/-- `filter_individuals` (`individuals.py` lines 410-464). -/
def filter_individuals (env : DataEnv) (lib : IsoLib) (parquet_file : Path)
    (individual_indices : List Int) (filters : IndividualFilter) :
    Option Nat :=
  if filters.matches_all ∧ individual_indices.length > 0 then
    some individual_indices.length
  else
    let rowMatch : IndRow → Bool := fun r =>
      (if individual_indices.length > 0 then
        individual_indices.contains r.index
      else true) &&
      (match filters.sex with
       | some s => r.sex = s
       | none => true)
    match env.indFiles.get? parquet_file with
    | none => none
    | some rows =>
      let table := rows.filter rowMatch
      if table.length = 0 then none
      else
        let match_count :=
          if !filters.has_age_filter then table.length
          else (table.filter (fun r => filters.matches_age lib r.age)).length
        if match_count > 0 then some match_count else none

/-- `filter_individuals_by_variant` (`individuals.py` lines 356-391).  The
variants file may be `None` (then the pyarrow read fails and `read_parquet`
returns `None`).  A malformed `INDIVIDUALS` value raises out of
`parse_range`, hence the `Except`. -/
def filter_individuals_by_variant (env : DataEnv) (lib : IsoLib)
    (params : VariantQueryParameters) (filters : IndividualFilter)
    (variants_parquet_file : Option Path) (individuals_parquet_file : Path) :
    Except Str (Option Nat) :=
  let table :=
    match variants_parquet_file.bind env.vcfIndFiles.get? with
    | none => none
    | some rows => some (rows.filter (vcfIndMatch params))
  match table with
  | none => .ok none
  | some [] => .ok none
  | some (row :: _) =>
    match parse_range row.individuals with
    | none => .error "ValueError: invalid INDIVIDUALS literal".data
    | some indices =>
      .ok (filter_individuals env lib individuals_parquet_file indices filters)

/-! ## `beacon/setup.py`: the slice the query services use -/

/-- The `BeaconSetup` state the /individuals service reads:
`_hide_lower_counts` (from `configuration.hideLowerCounts`, a positive
int with default 1). -/
structure BeaconSetup where
  hide_lower_counts : Nat
deriving DecidableEq

/-- `BeaconSetup.censor_count` (`setup.py` lines 322-325). -/
def BeaconSetup.censor_count (setup : BeaconSetup) (count : Option Nat) :
    Option Nat :=
  match count with
  | none => none
  | some c => if c < setup.hide_lower_counts then none else some c

/-! ## `beacon/service/individuals.py`: the two search branches -/

/-- Loop of `get_results_from_individuals_parquet` (`individuals.py` lines
270-291).  `filter_individuals` never returns `0` (it returns `None`
instead), so the source's `if count == 0: continue` is dead; a `None` count
that survives the `skip` window reaches
`ResultSet(resultsCount=None, ...)`, which pydantic rejects — modelled as a
raised error. -/
def griLoop (env : DataEnv) (lib : IsoLib) (filters : IndividualFilter)
    (skip limit : Nat) :
    List (Str × (Path × Option Path)) → Nat → List ResultSet →
    Except Str ResultSets
  | [], _, acc => .ok { resultSets := acc }
  | (dataset_id, parquet_files) :: rest, match_count, acc =>
    let count := filter_individuals env lib parquet_files.1 [] filters
    if count = some 0 then griLoop env lib filters skip limit rest match_count acc
    else
      let match_count := match_count + 1
      if match_count ≤ skip then
        griLoop env lib filters skip limit rest match_count acc
      else
        match count with
        | none => .error "ValidationError: resultsCount must be an int".data
        | some c =>
          let acc := acc ++ [mkResultSet dataset_id c]
          if acc.length ≥ limit then .ok { resultSets := acc }
          else griLoop env lib filters skip limit rest match_count acc

/-- `get_results_from_individuals_parquet` (`individuals.py` lines 250-291).
Note: no censoring happens on this branch. -/
def get_results_from_individuals_parquet (env : DataEnv) (lib : IsoLib)
    (filters : IndividualFilter) (skip limit : Nat) : Except Str ResultSets :=
  griLoop env lib filters skip limit
    (env.sensitive.get_dataset_individuals none none none) 0 []

/-- Loop of `get_results_from_variants` (`individuals.py` lines 329-351):
the count is passed through `setup.censor_count` before pagination. -/
def grfvLoop (env : DataEnv) (lib : IsoLib) (setup : BeaconSetup)
    (params : VariantQueryParameters) (filters : IndividualFilter)
    (skip limit : Nat) :
    List (Str × (Path × Option Path)) → Nat → List ResultSet →
    Except Str ResultSets
  | [], _, acc => .ok { resultSets := acc }
  | (dataset_id, parquet_files) :: rest, match_count, acc =>
    match filter_individuals_by_variant env lib params filters
        parquet_files.2 parquet_files.1 with
    | .error e => .error e
    | .ok individuals_count =>
      match setup.censor_count individuals_count with
      | none => grfvLoop env lib setup params filters skip limit rest
          match_count acc
      | some c =>
        let match_count := match_count + 1
        if match_count ≤ skip then
          grfvLoop env lib setup params filters skip limit rest match_count acc
        else
          let acc := acc ++ [mkResultSet dataset_id c]
          if acc.length ≥ limit then .ok { resultSets := acc }
          else grfvLoop env lib setup params filters skip limit rest
            match_count acc

/-- `get_results_from_variants` (`individuals.py` lines 294-353).
`BeaconAssembly(params.assemblyId)` raises on an unsupported assembly. -/
def get_results_from_variants (env : DataEnv) (lib : IsoLib)
    (setup : BeaconSetup) (params : VariantQueryParameters)
    (filters : IndividualFilter) (skip limit : Nat) : Except Str ResultSets :=
  match parseAssembly (pyStrOpt params.assemblyId) with
  | none => .error "ValueError: not a valid BeaconAssembly".data
  | some assembly =>
    let dataset_files :=
      env.sensitive.get_dataset_individuals (some assembly)
        params.referenceName (some (startZero params))
    grfvLoop env lib setup params filters skip limit dataset_files 0 []

/-- `get_individuals_count` (`individuals.py` lines 111-160). -/
def get_individuals_count (env : DataEnv) (lib : IsoLib) (setup : BeaconSetup)
    (request : BeaconRequest) : Except Str ResultSets :=
  if request.query.testMode = some true then .ok emptyResultSets
  else
    let include_bad : Bool :=
      match request.query.includeResultsetResponses with
      | some m => m ≠ .HIT
      | none => false
    if include_bad then .ok emptyResultSets
    else
      let params0 := resolve_variant_filter request
      let params :=
        match params0 with
        | some p => if !p.has_sufficient_values then none else some p
        | none => none
      let unsupported : Bool :=
        match params with
        | some p => p.has_unsupported_values
        | none => false
      if unsupported then .ok emptyResultSets
      else
        match resolve_filters lib request with
        | none => .ok emptyResultSets
        | some filters =>
          let page := request.query.pagination
          let limit :=
            match page with
            | some pg => pg.limit.getD 10
            | none => 10
          let skip :=
            match page with
            | some pg => pg.skip.getD 0
            | none => 0
          match params with
          | none =>
            get_results_from_individuals_parquet env lib filters skip limit
          | some p =>
            get_results_from_variants env lib setup p filters skip limit

/-! ## `beacon/service/allele_freq.py` -/

/-- `Identifiers` (`model/allele_freq.py`). -/
structure Identifiers where
  genomicHGVSId : Str
deriving DecidableEq

/-- `Number` (`model/allele_freq.py`); `type` is the constant `"Number"`. -/
structure GksNumber where
  value : Int
deriving DecidableEq

/-- `SequenceInterval` (`model/allele_freq.py`); `end` renamed `endv`. -/
structure SequenceInterval where
  start : GksNumber
  endv : GksNumber
deriving DecidableEq

/-- `SequenceLocation` (`model/allele_freq.py`). -/
structure SequenceLocation where
  sequence_id : Str
  interval : SequenceInterval
deriving DecidableEq

/-- `LegacyVariation` (`model/allele_freq.py`). -/
structure LegacyVariation where
  location : SequenceLocation
  referenceBases : Str
  alternateBases : Str
  variantType : Str
deriving DecidableEq

/-- `PopulationFrequency` (`model/allele_freq.py`). -/
structure PopulationFrequency where
  population : Str
  alleleFrequency : Rat
  alleleCount : Option Int
  alleleCountHomozygous : Option Int
  alleleCountHeterozygous : Option Int
  alleleCountHemizygous : Option Int
  alleleNumber : Option Int
deriving DecidableEq

/-- `FrequencyInPopulations` (`model/allele_freq.py`); the two constant
source fields are omitted. -/
structure FrequencyInPopulations where
  numberOfPopulations : Nat
  populations : List PopulationFrequency
deriving DecidableEq

/-- `AlleleFreqResult` (`model/allele_freq.py`). -/
structure AlleleFreqResult where
  identifiers : Option Identifiers
  variantInternalId : Str
  variation : LegacyVariation
  frequencyInPopulations : List FrequencyInPopulations
deriving DecidableEq

/-- `AFVariant` (`allele_freq.py`). -/
structure AFVariant where
  assembly : BeaconAssembly
  chrom : Str
  pos : Nat
  ref : Str
  alt : Str
  variantType : Str
deriving DecidableEq

/-- The `REF_SEQ` table (`allele_freq.py` lines 262-319), verbatim. -/
def REF_SEQ (a : BeaconAssembly) : PyDict Str Str :=
  match a with
  | .GRCh37 =>
    [("1".data, "NC_000001.10".data), ("2".data, "NC_000002.11".data),
     ("3".data, "NC_000003.11".data), ("4".data, "NC_000004.11".data),
     ("5".data, "NC_000005.9".data), ("6".data, "NC_000006.11".data),
     ("7".data, "NC_000007.13".data), ("8".data, "NC_000008.10".data),
     ("9".data, "NC_000009.11".data), ("10".data, "NC_000010.10".data),
     ("11".data, "NC_000011.9".data), ("12".data, "NC_000012.11".data),
     ("13".data, "NC_000013.10".data), ("14".data, "NC_000014.8".data),
     ("15".data, "NC_000015.9".data), ("16".data, "NC_000016.9".data),
     ("17".data, "NC_000017.10".data), ("18".data, "NC_000018.9".data),
     ("19".data, "NC_000019.9".data), ("20".data, "NC_000020.10".data),
     ("21".data, "NC_000021.8".data), ("22".data, "NC_000022.10".data),
     ("X".data, "NC_000023.10".data), ("Y".data, "NC_000024.9".data),
     ("M".data, "NC_001807.4".data)]
  | .GRCh38 =>
    [("1".data, "NC_000001.11".data), ("2".data, "NC_000002.12".data),
     ("3".data, "NC_000003.12".data), ("4".data, "NC_000004.12".data),
     ("5".data, "NC_000005.10".data), ("6".data, "NC_000006.12".data),
     ("7".data, "NC_000007.14".data), ("8".data, "NC_000008.11".data),
     ("9".data, "NC_000009.12".data), ("10".data, "NC_000010.11".data),
     ("11".data, "NC_000011.10".data), ("12".data, "NC_000012.12".data),
     ("13".data, "NC_000013.11".data), ("14".data, "NC_000014.9".data),
     ("15".data, "NC_000015.10".data), ("16".data, "NC_000016.10".data),
     ("17".data, "NC_000017.11".data), ("18".data, "NC_000018.10".data),
     ("19".data, "NC_000019.10".data), ("20".data, "NC_000020.11".data),
     ("21".data, "NC_000021.9".data), ("22".data, "NC_000022.11".data),
     ("X".data, "NC_000023.11".data), ("Y".data, "NC_000024.10".data),
     ("M".data, "NC_012920.1".data)]

/-- `_identifiers` (`allele_freq.py` lines 197-200). -/
def afIdentifiers (variant : AFVariant) : Identifiers :=
  let ref_seq_id := ((REF_SEQ variant.assembly).get? variant.chrom).getD []
  { genomicHGVSId :=
      ref_seq_id ++ ":g.".data ++ natStr (variant.pos + 1) ++ variant.ref ++
        ">".data ++ variant.alt }

/-- `_variant_internal_id` (`allele_freq.py` lines 203-205); the `uuid1()`
value is a parameter (it is nondeterministic in the source). -/
def afVariantInternalId (uuid : Str) (ref alt : Str) : Str :=
  uuid ++ ":".data ++ ref ++ ":".data ++ alt

/-- `_legacy_variation` (`allele_freq.py` lines 208-222). -/
def afLegacyVariation (variant : AFVariant) : LegacyVariation :=
  let seq_pos := variant.pos + 1
  { location :=
      { sequence_id :=
          "HGVSid:".data ++ variant.chrom ++ ":g.".data ++ natStr seq_pos ++
            variant.ref ++ ">".data ++ variant.alt
        interval :=
          { start := { value := Int.ofNat variant.pos }
            endv := { value := Int.ofNat (variant.pos + variant.ref.length) } } }
    referenceBases := variant.ref
    alternateBases := variant.alt
    variantType := variant.variantType }

/-- `_frequencies` (`allele_freq.py` lines 225-243). -/
def afFrequencies (af_rows : List AfRow) : List FrequencyInPopulations :=
  let pop_frequencies := af_rows.map (fun r =>
    { population := r.population
      alleleFrequency := r.af
      alleleCount := some r.ac
      alleleCountHomozygous := some r.ac_hom
      alleleCountHeterozygous := some r.ac_het
      alleleCountHemizygous := some r.ac_hemi
      alleleNumber := some r.an : PopulationFrequency })
  [{ numberOfPopulations := pop_frequencies.length
     populations := pop_frequencies }]

/-- `_result` (`allele_freq.py` lines 188-194). -/
def afResult (uuid : Str) (variant : AFVariant) (af_rows : List AfRow) :
    AlleleFreqResult :=
  { identifiers := some (afIdentifiers variant)
    variantInternalId := afVariantInternalId uuid variant.ref variant.alt
    variation := afLegacyVariation variant
    frequencyInPopulations := afFrequencies af_rows }

/-- `_read_parquet` (`allele_freq.py` lines 151-185): requires the request
parameters to be a single `VariantQueryParameters`, filters the rows, and
returns `None` on a failed read or an empty table. -/
def afReadParquet (env : DataEnv) (request : BeaconRequest)
    (parquet_file : Path) : Option (List AfRow) :=
  match request.query.requestParameters with
  | .single query =>
    match env.afFiles.get? parquet_file with
    | none => none
    | some rows =>
      let table := rows.filter (afMatch query)
      if table.length = 0 then none else some table
  | _ => none

/-- The `AlleleFreqResult | bool` return of `find_af`. -/
inductive AFOutcome
  | result (r : AlleleFreqResult)
  | cont (b : Bool)
deriving DecidableEq

/-- `find_af` (`allele_freq.py` lines 111-148). -/
def find_af (env : DataEnv) (uuid : Str) (request : BeaconRequest)
    (parquet_file : Path) (skip_details : Bool)
    (assembly_id : BeaconAssembly) (chrom : Str) : AFOutcome :=
  match afReadParquet env request parquet_file with
  | none => .cont false
  | some table =>
    if skip_details then .cont true
    else
      match table with
      | [] => .cont false
      | row :: _ =>
        let af_variant : AFVariant :=
          { assembly := assembly_id, chrom := chrom, pos := row.pos,
            ref := row.ref, alt := row.alt, variantType := row.vt }
        .result (afResult uuid af_variant table)

/-- Loop of `find_datasets_allele_frequencies` (`allele_freq.py` lines
94-106). -/
def fdafLoop (env : DataEnv) (uuid : Str) (request : BeaconRequest)
    (assembly : BeaconAssembly) (chrom : Str) (skip limit : Nat) :
    List (Str × Path) → Nat → PyDict Str AlleleFreqResult →
    PyDict Str AlleleFreqResult
  | [], _, results => results
  | (dataset_id, parquet_file) :: rest, match_count, results =>
    let skip_details := match_count < skip
    match find_af env uuid request parquet_file skip_details assembly chrom
    with
    | .cont false =>
      fdafLoop env uuid request assembly chrom skip limit rest match_count
        results
    | .cont true =>
      fdafLoop env uuid request assembly chrom skip limit rest
        (match_count + 1) results
    | .result r =>
      let results := results.set dataset_id r
      if results.length ≥ limit then results
      else
        fdafLoop env uuid request assembly chrom skip limit rest
          (match_count + 1) results

/-- `find_datasets_allele_frequencies` (`allele_freq.py` lines 70-108).
The second component is the uncaught exception, if any: an `AttributeError`
when `requestParameters` is a list (no `is_not_sufficient` on `list`), a
`ValueError` from `BeaconAssembly(None | invalid)`, a
`TypeError`/`IndexError` from `params.start[0]`. -/
def find_datasets_allele_frequencies (env : DataEnv) (uuid : Str)
    (request : BeaconRequest) :
    PyDict Str AlleleFreqResult × Option Str :=
  match request.query.requestParameters with
  | .noneP => ([], none)
  | .listP _ => ([], some "AttributeError: list has no is_not_sufficient".data)
  | .single params =>
    if params.is_not_sufficient then ([], none)
    else
      match parseAssembly (pyStrOpt params.assemblyId) with
      | none => ([], some "ValueError: not a valid BeaconAssembly".data)
      | some assembly =>
        match params.start with
        | none => ([], some "TypeError: NoneType is not subscriptable".data)
        | some [] => ([], some "IndexError: list index out of range".data)
        | some (p0 :: _) =>
          let dataset_files :=
            env.aggregated.get_dataset_files assembly
              (pyStrOpt params.referenceName) p0
          let page := request.query.pagination
          let limit :=
            match page with
            | some pg => pg.limit.getD 10
            | none => 10
          let skip :=
            match page with
            | some pg => pg.skip.getD 0
            | none => 0
          (fdafLoop env uuid request assembly (pyStrOpt params.referenceName)
            skip limit dataset_files 0 [], none)

/-! ## `beacon/setup.py`: the authentication gate -/

/-- `BeaconOidcConfig` (`beacon/config.py`). -/
structure BeaconOidcConfig where
  issuer : Option Str
  client_id : Option Str
  client_secret : Option Str
  required_visas : Option (List (PyDict Str Str))
deriving DecidableEq

/-- `BeaconOidcConfig.is_effective`. -/
def BeaconOidcConfig.is_effective (c : BeaconOidcConfig) : Bool :=
  c.issuer.isSome && c.client_id.isSome && c.client_secret.isSome

/-- `BeaconBasicAuthConfig` (`beacon/config.py`). -/
structure BeaconBasicAuthConfig where
  username : Option Str
  password : Option Str
deriving DecidableEq

/-- `BeaconBasicAuthConfig.is_effective`. -/
def BeaconBasicAuthConfig.is_effective (c : BeaconBasicAuthConfig) : Bool :=
  c.username.isSome && c.password.isSome

/-- The authentication state `BeaconSetup.__init__` computes
(`setup.py` lines 259-294): whether an OIDC verifier was constructed, and
the set of accepted `Basic` header values.  The base64 encoding of
`encode_basic_credential` is a parameter `enc`. -/
def setupAuth (enc : Str → Str → Str) (oidc_config : Option BeaconOidcConfig)
    (basic_auth_config : Option (List BeaconBasicAuthConfig)) :
    Except Str (Option BeaconOidcConfig × Option (List Str)) :=
  let oidc_verifier : Option BeaconOidcConfig :=
    match oidc_config with
    | some c => if c.is_effective then some c else none
    | none => none
  let basic_headers : Option (List Str) :=
    match basic_auth_config with
    | some l =>
      if l.length > 0 then
        let creds := (l.filter (fun i => i.is_effective)).map
          (fun i => enc (i.username.getD []) (i.password.getD []))
        if creds.length > 0 then some creds else none
      else none
    | none => none
  if oidc_verifier.isSome ∧ basic_headers.isSome then
    .error "RuntimeError: cannot use both OIDC and Basic auth".data
  else .ok (oidc_verifier, basic_headers)

/-- `authorization_header.split(" ")[1].strip()` from the Bearer branch. -/
def bearerToken (header : Str) : Str :=
  pyStrip (((splitOnChar ' ' header).get? 1).getD [])

/-- `BeaconSetup.authenticate` (`setup.py` lines 450-491).  `verify` stands
for `self._oidc_verifier.verify` (network + crypto).  The result is the
authentication scheme to request from the user, `none` meaning access is
granted. -/
def authenticate (oidc_verifier : Option BeaconOidcConfig)
    (basic_headers : Option (List Str)) (verify : Str → Bool)
    (authorization_header : Option Str) : Option Str :=
  let header := authorization_header.getD []
  let bearer_result : Option Str :=
    match oidc_verifier with
    | some _ =>
      let valid :=
        if "Bearer ".data.isPrefixOf header then verify (bearerToken header)
        else false
      if !valid then some "Bearer".data else none
    | none => none
  match bearer_result with
  | some r => some r
  | none =>
    match basic_headers with
    | some headers =>
      if !(headers.contains header) then some "Basic".data else none
    | none => none

/-! ## `oidc.py`: the LRU cache and the verifier -/

/-- `LRUCache` (`oidc.py` lines 14-37); entries map a token to its cached
outcome and insertion timestamp (`time.time()`, modelled as `Int`). -/
structure LRUCache where
  capacity : Nat
  valid_secs : Int
  data : PyDict Str (Bool × Int)
deriving DecidableEq

/-- `OrderedDict.move_to_end`. -/
def odMoveToEnd (d : PyDict Str (Bool × Int)) (k : Str) :
    PyDict Str (Bool × Int) :=
  match d.get? k with
  | none => d
  | some v => (d.erase k) ++ [(k, v)]

/-- `LRUCache.get` (`oidc.py` lines 23-31): freshness is
`time.time() - ts <= valid_secs`; an expired entry is popped. -/
def LRUCache.get (c : LRUCache) (key : Str) (now : Int) :
    Option Bool × LRUCache :=
  match c.data.get? key with
  | none => (none, c)
  | some (valid, ts) =>
    let d1 := odMoveToEnd c.data key
    if now - ts ≤ c.valid_secs then (some valid, { c with data := d1 })
    else (none, { c with data := d1.erase key })

/-- `LRUCache.put` (`oidc.py` lines 33-37): store with the current time,
move to the end, evict the oldest entry past capacity. -/
def LRUCache.put (c : LRUCache) (key : Str) (value : Bool) (now : Int) :
    LRUCache :=
  let d1 := odMoveToEnd (c.data.set key (value, now)) key
  let d2 := if d1.length > c.capacity then d1.drop 1 else d1
  { c with data := d2 }

/-- The LRU cache `OidcVerifier.__init__` constructs
(`oidc.py` line 62): capacity 1000, TTL 60 s. -/
def initVerifierLRU : LRUCache :=
  { capacity := 1000, valid_secs := 60, data := [] }

/-- The claims of a decoded JWT that `verify` reads. -/
structure JwtClaims where
  sub : Option Str
  ga4gh_passport_v1 : Option (List Str)
deriving DecidableEq

/-- The external machinery `verify` depends on: `jwt.decode` against the
cached JWK (`none` = `InvalidTokenError`), and the whole visa-checking
pipeline `_check_visas` (nested JWT decoding, `jku` fetches, signature
checks). -/
structure JwtOracle where
  decode : Str → Option JwtClaims
  check_visas : Str → List Str → List (PyDict Str Str) → Bool

/-- The `OidcVerifier` state `verify` touches. -/
structure OidcVerifierState where
  required_visas : Option (List (PyDict Str Str))
  jwk : Option Unit
  lru : LRUCache
deriving DecidableEq

/-- `_check_passport` (`oidc.py` lines 144-156). -/
def check_passport (st : OidcVerifierState) (o : JwtOracle) (sub : Str)
    (passport_claim : Option (List Str)) : Bool :=
  match st.required_visas with
  | none => true
  | some [] => true
  | some req =>
    match passport_claim with
    | some (v :: vs) => o.check_visas sub (v :: vs) req
    | _ => false

/-- `OidcVerifier.verify` (`oidc.py` lines 94-139): length gate, cache
consult, decode, `sub` check, passport check, cache store.  The error case
is the `RuntimeError` raised when the verifier was never initialised. -/
def OidcVerifier.verify (st : OidcVerifierState) (o : JwtOracle) (token : Str)
    (now : Int) : Except Str (Bool × OidcVerifierState) :=
  if token.length ≤ 100 then .ok (false, st)
  else
    match st.lru.get token now with
    | (some cached, lru1) => .ok (cached, { st with lru := lru1 })
    | (none, lru1) =>
      let st1 := { st with lru := lru1 }
      match st1.jwk with
      | none => .error "RuntimeError: Verifier not initialized".data
      | some _ =>
        match o.decode token with
        | none => .ok (false, { st1 with lru := st1.lru.put token false now })
        | some claims =>
          match claims.sub with
          | none => .ok (false, { st1 with lru := st1.lru.put token false now })
          | some sub =>
            if sub = [] then
              .ok (false, { st1 with lru := st1.lru.put token false now })
            else
              let valid := check_passport st1 o sub claims.ga4gh_passport_v1
              .ok (valid, { st1 with lru := st1.lru.put token valid now })

/-! ## Registry operation sequences (for the catalog invariant) -/

/-- The registry operations the FDP lifecycle performs. -/
inductive RegOp
  | addDataset (dataset_id : Str) (props : FdpDataset)
  | removeDataset (dataset_id : Str) (purge_beacon : Bool)
deriving DecidableEq

/-- Apply one operation. -/
def applyOp (reg : DataRegistry) : RegOp → DataRegistry
  | .addDataset dataset_id props => reg.add_dataset dataset_id props
  | .removeDataset dataset_id purge => reg.remove_dataset dataset_id purge

/-- Apply a sequence of operations from a given state. -/
def applyOps (reg : DataRegistry) (ops : List RegOp) : DataRegistry :=
  ops.foldl applyOp reg

/-- The spec invariant, executably: every `dataset_id` in
`catalog_datasets[c]` has `datasets[dataset_id].catalog_id == c`. -/
def catalogInvB (reg : DataRegistry) : Bool :=
  reg.fdp.catalog_datasets.all (fun ckv =>
    ckv.2.all (fun dataset_id =>
      match reg.fdp.datasets.get? dataset_id with
      | some p => p.catalog_id = some ckv.1
      | none => false))

/-- The spec invariant as a proposition. -/
def CatalogInvP (reg : DataRegistry) : Prop :=
  ∀ c ids, (c, ids) ∈ reg.fdp.catalog_datasets → ∀ id ∈ ids,
    ∃ p, reg.fdp.datasets.get? id = some p ∧ p.catalog_id = some c

/-- Auxiliary structural invariant: no catalog list has duplicate entries
(true of every reachable state; needed because Python's `list.remove` drops
only the first occurrence). -/
def ListsNodupP (reg : DataRegistry) : Prop :=
  ∀ c ids, (c, ids) ∈ reg.fdp.catalog_datasets → ids.Nodup

/-- Does an operation sequence ever add a dataset without a catalog id? -/
def opsKeepCatalogId (ops : List RegOp) : Bool :=
  ops.all (fun op =>
    match op with
    | .addDataset _ props => props.catalog_id.isSome
    | .removeDataset _ _ => true)

/-! ## Concrete fixtures

Concrete registries, environments and requests used by the counterexample
and witness theorems below.  They correspond to the worked scenarios of the
specification (notably scenario 3, the individuals count with a variant
filter). -/

/-- A trivial instantiation of the external `isoduration` library (the
concrete inputs below never exercise the age comparators). -/
def trivLib : IsoLib :=
  { parse_duration := fun s => some s
    ltB := fun _ _ => false
    leB := fun _ _ => false
    eqB := fun a b => a = b }

/-- The data directory used by the path fixtures. -/
def dataDir : Path := ["data".data]

/-- `data/DS1/GRCh37/individuals.parquet`. -/
def ipPath : Path :=
  ["data".data, "DS1".data, "GRCh37".data, "individuals.parquet".data]

/-- `data/DS1/GRCh37/individuals-chr1.0.parquet`. -/
def vpPath : Path :=
  ["data".data, "DS1".data, "GRCh37".data, "individuals-chr1.0.parquet".data]

/-- `data/DS1/GRCh37/allele-freq-chr1.0.parquet`. -/
def afPath : Path :=
  ["data".data, "DS1".data, "GRCh37".data, "allele-freq-chr1.0.parquet".data]

/-- A dummy metadata record with the given catalog id. -/
def mkProps (catalog_id : Option Str) : FdpDataset :=
  { title := "T".data, description := "D".data, catalog_id := catalog_id,
    keywords := none, since := "2024-01-01".data,
    updated := "2024-01-02".data, min_age := none, max_age := none,
    individual_count := none, record_count := 1,
    data_provider_name := "P".data }

/-- A catalog fixture. -/
def catC : FdpCatalog :=
  { title := "Cat".data, description := "Cat".data, since := none }

/-- Scenario 3's `individuals-chr1.0.parquet` content:
`{POS=999, REF="A", ALT="G", VT="SNP", INDIVIDUALS="2,5-7,9"}`. -/
def scenarioVcfRows : List VcfIndRow :=
  [{ pos := 999, ref := "A".data, alt := "G".data, vt := "SNP".data,
     individuals := "2,5-7,9".data }]

/-- Scenario 3's `individuals.parquet` content: indices
`{2,3,4,5,6,7,9}`, sex `{F,M,F,M,F,M,F}`. -/
def scenarioIndRows : List IndRow :=
  [{ index := 2, sex := "F".data, age := none },
   { index := 3, sex := "M".data, age := none },
   { index := 4, sex := "F".data, age := none },
   { index := 5, sex := "M".data, age := none },
   { index := 6, sex := "F".data, age := none },
   { index := 7, sex := "M".data, age := none },
   { index := 9, sex := "F".data, age := none }]

/-- The environment of scenario 3: one sensitive dataset `DS1` with both
individuals files. -/
def scenarioEnv : DataEnv :=
  { aggregated := { assemblies := [] }
    sensitive :=
      { assemblies :=
          [(.GRCh37,
            [{ dataset_id := "DS1".data, individuals_parquet := some ipPath,
               chr_group_files := [("1.0".data, vpPath)] }])] }
    indFiles := [(ipPath, scenarioIndRows)]
    vcfIndFiles := [(vpPath, scenarioVcfRows)]
    afFiles := [] }

/-- The `sex = NCIT:C16576` filter of scenario 3 (scope `individual`). -/
def sexFilterF : QueryFilter :=
  mkQueryFilter "sex".data none (some "NCIT:C16576".data)
    (some "individual".data)

/-- Scenario 3's sufficient variant parameters. -/
def scenarioParams : VariantQueryParameters :=
  { noParams with
    assemblyId := some "GRCh37".data
    referenceName := some "1".data
    referenceBases := some "A".data
    alternateBases := some "G".data
    start := some [999] }

/-- Scenario 3's /individuals request: variant parameters plus the sex
filter. -/
def scenarioRequest : BeaconRequest :=
  { query :=
      { emptyQuery with
        requestParameters := .single scenarioParams
        filters := some [sexFilterF] } }

/-- An /individuals request with the sex filter and no variant parameters
(the branch without variant filtering). -/
def noVariantRequest : BeaconRequest :=
  { query := { emptyQuery with filters := some [sexFilterF] } }

/-- An environment for the no-variant branch: `DS1` has an individuals
file with five rows of which three are female. -/
def censorEnv : DataEnv :=
  { aggregated := { assemblies := [] }
    sensitive :=
      { assemblies :=
          [(.GRCh37,
            [{ dataset_id := "DS1".data, individuals_parquet := some ipPath,
               chr_group_files := [] }])] }
    indFiles :=
      [(ipPath,
        [{ index := 1, sex := "F".data, age := none },
         { index := 2, sex := "M".data, age := none },
         { index := 3, sex := "F".data, age := none },
         { index := 4, sex := "M".data, age := none },
         { index := 5, sex := "F".data, age := none }])]
    vcfIndFiles := []
    afFiles := [] }

/-- The aggregated environment for the /g_variants claims: one dataset with
one allele-frequency file holding scenario 1's single row. -/
def afEnv : DataEnv :=
  { aggregated :=
      { assemblies :=
          [(.GRCh37,
            [{ dataset_id := "DS1".data, individuals_parquet := none,
               chr_group_files := [("1.0".data, afPath)] }])] }
    sensitive := { assemblies := [] }
    indFiles := []
    vcfIndFiles := []
    afFiles :=
      [(afPath,
        [{ pos := 12344, ref := "A".data, alt := "G".data, vt := "SNP".data,
           population := "FI".data, af := (1 : Rat) / 10, ac := 1,
           ac_het := 1, ac_hom := 0, ac_hemi := 0, an := 10 }])] }

/-- A /g_variants request carrying a value for the unsupported `geneId`
while satisfying the sufficiency precondition. -/
def geneIdRequest : BeaconRequest :=
  { query :=
      { emptyQuery with
        requestParameters := .single
          { noParams with
            geneId := some "BRCA1".data
            assemblyId := some "GRCh37".data
            referenceName := some "1".data
            referenceBases := some "A".data
            alternateBases := some "G".data
            start := some [12344] } } }

/-- A registry whose dataset `DS1` appears in a catalog, in the FDP maps
and in both Beacon personalities. -/
def regFull : DataRegistry :=
  { fdp :=
      { catalogs := [("c".data, catC)]
        datasets := [("DS1".data, mkProps (some "c".data))]
        catalog_datasets := [("c".data, ["DS1".data])] }
    aggregated_beacon :=
      { assemblies :=
          [(.GRCh37,
            [{ dataset_id := "DS1".data, individuals_parquet := none,
               chr_group_files := [("1.0".data, afPath)] }])] }
    sensitive_beacon :=
      { assemblies :=
          [(.GRCh37,
            [{ dataset_id := "DS1".data, individuals_parquet := some ipPath,
               chr_group_files := [] }])] }
    problematic_files := [] }

/-- `data/DS1/metadata.yaml`. -/
def metaPath : Path := ["data".data, "DS1".data, "metadata.yaml".data]

/-- A 101-character bearer token (long enough to pass the length gate). -/
def longToken : Str := List.replicate 101 'a'

/-- A verifier state with `longToken` cached as valid at time 0, no
required visas and an initialised JWK. -/
def cachedVerifierState : OidcVerifierState :=
  { required_visas := none
    jwk := some ()
    lru := { capacity := 1000, valid_secs := 60, data := [(longToken, (true, 0))] } }

/-- An oracle whose re-validation always fails (decode raises). -/
def failingOracle : JwtOracle :=
  { decode := fun _ => none
    check_visas := fun _ _ _ => false }

/-! ## Spec-side helper functions used in theorem statements -/

/-- The file-entry removal `remove_parquet` performs, selected by the
basename: clear `individuals_parquet` for `individuals.parquet`, else drop
the resolved chr-group entry. -/
def removeFileMutation (filename : Str) (d : BeaconDataset) : BeaconDataset :=
  if filename = "individuals.parquet".data then
    { d with individuals_parquet := none }
  else
    match resolve_chr_group filename with
    | .ok (some chr_group) =>
      { d with chr_group_files := d.chr_group_files.erase chr_group }
    | _ => d

/-- Does the (first) dataset with this id in the list hold no files? -/
def datasetEmptiedB (l : List BeaconDataset) (dataset_id : Str) : Bool :=
  match firstById l dataset_id with
  | some d => d.individuals_parquet.isNone && d.chr_group_files.isEmpty
  | none => false

/-- The assembly-`asm` dataset list `remove_parquet` works on: the ensured
list of the personality the basename routes to. -/
def ensuredList (reg : DataRegistry) (p : Personality)
    (asm : BeaconAssembly) (dataset_id : Str) : List BeaconDataset :=
  (((ensureBeaconDataset (reg.beacon p) asm dataset_id).assemblies.get?
    asm).getD [])

/-- A character that is not an operator character, not whitespace and not a
separator — the alphabet for which the GET filter grammar is unambiguous. -/
def plainChar (c : Char) : Bool :=
  !(['=', '!', '<', '>'].contains c) && !isPySpace c && c != ','

/-- The id transformation `parse_filters` applies to the text before the
operator: trailing colons dropped, then underscores mapped to colons. -/
def filterIdTransform (s : Str) : Str :=
  underscoreToColon (dropTrailing (· == ':') s)

/-- Decidable equality for `Except` results. -/
instance {ε α : Type} [DecidableEq ε] [DecidableEq α] :
    DecidableEq (Except ε α) := fun a b =>
  match a, b with
  | .error e, .error e' =>
    if h : e = e' then .isTrue (by rw [h])
    else .isFalse (fun hc => h (by cases hc; rfl))
  | .ok x, .ok y =>
    if h : x = y then .isTrue (by rw [h])
    else .isFalse (fun hc => h (by cases hc; rfl))
  | .error _, .ok _ => .isFalse (fun hc => by cases hc)
  | .ok _, .error _ => .isFalse (fun hc => by cases hc)

/-! ## Helper lemmas: dictionaries -/

theorem PyDict.get?_set_self {K V : Type} [DecidableEq K] (d : PyDict K V)
    (k : K) (v : V) : (d.set k v).get? k = some v := by
  induction d with
  | nil => simp [PyDict.set, PyDict.get?]
  | cons kv t ih =>
    obtain ⟨k', v'⟩ := kv
    by_cases h : k' = k
    · simp [PyDict.set, h, PyDict.get?]
    · simp [PyDict.set, h, PyDict.get?, ih]

theorem PyDict.get?_set_ne {K V : Type} [DecidableEq K] (d : PyDict K V)
    (k k' : K) (v : V) (h : k' ≠ k) :
    (d.set k v).get? k' = d.get? k' := by
  have hk : k ≠ k' := fun e => h e.symm
  induction d with
  | nil => simp [PyDict.set, PyDict.get?, hk]
  | cons kv t ih =>
    obtain ⟨k₀, v₀⟩ := kv
    by_cases h0 : k₀ = k
    · subst h0
      simp [PyDict.set, PyDict.get?, hk]
    · simp [PyDict.set, h0, PyDict.get?, ih]

theorem PyDict.get?_erase_ne {K V : Type} [DecidableEq K] (d : PyDict K V)
    (k k' : K) (h : k' ≠ k) : (d.erase k).get? k' = d.get? k' := by
  have hk : k ≠ k' := fun e => h e.symm
  induction d with
  | nil => simp [PyDict.erase, PyDict.get?]
  | cons kv t ih =>
    obtain ⟨k₀, v₀⟩ := kv
    by_cases h0 : k₀ = k
    · subst h0
      simp [PyDict.erase, PyDict.get?, hk]
    · simp [PyDict.erase, h0, PyDict.get?, ih]

theorem PyDict.get?_mem {K V : Type} [DecidableEq K] (d : PyDict K V)
    (k : K) (v : V) (h : d.get? k = some v) : (k, v) ∈ d := by
  induction d with
  | nil => simp [PyDict.get?] at h
  | cons kv t ih =>
    obtain ⟨k₀, v₀⟩ := kv
    by_cases h0 : k₀ = k
    · subst h0
      simp [PyDict.get?] at h
      simp [h]
    · simp [PyDict.get?, h0] at h
      simp [ih h]

theorem PyDict.mem_set {K V : Type} [DecidableEq K] (d : PyDict K V)
    (k k' : K) (v v' : V) (h : (k', v') ∈ d.set k v) :
    (k' = k ∧ v' = v) ∨ (k', v') ∈ d := by
  induction d with
  | nil =>
    simp [PyDict.set] at h
    exact Or.inl h
  | cons kv t ih =>
    obtain ⟨k₀, v₀⟩ := kv
    by_cases h0 : k₀ = k
    · subst h0
      simp [PyDict.set] at h
      rcases h with h | h
      · exact Or.inl h
      · exact Or.inr (List.mem_cons_of_mem _ h)
    · simp [PyDict.set, h0] at h
      rcases h with h | h
      · exact Or.inr (by simp [h])
      · rcases ih h with h1 | h1
        · exact Or.inl h1
        · exact Or.inr (List.mem_cons_of_mem _ h1)

theorem PyDict.mem_erase {K V : Type} [DecidableEq K] (d : PyDict K V)
    (k : K) (x : K × V) (h : x ∈ d.erase k) : x ∈ d := by
  induction d with
  | nil => simp [PyDict.erase] at h
  | cons kv t ih =>
    obtain ⟨k₀, v₀⟩ := kv
    by_cases h0 : k₀ = k
    · subst h0
      simp [PyDict.erase] at h
      exact List.mem_cons_of_mem _ h
    · simp [PyDict.erase, h0] at h
      rcases h with h | h
      · simp [h]
      · exact List.mem_cons_of_mem _ (ih h)

theorem PyDict.get?_mapValues {K V : Type} [DecidableEq K] (d : PyDict K V)
    (f : V → V) (k : K) : (d.mapValues f).get? k = (d.get? k).map f := by
  induction d with
  | nil => simp [PyDict.mapValues, PyDict.get?]
  | cons kv t ih =>
    obtain ⟨k₀, v₀⟩ := kv
    by_cases h0 : k₀ = k
    · simp [PyDict.mapValues, PyDict.get?, h0]
    · simpa [PyDict.mapValues, PyDict.get?, h0] using ih

theorem PyDict.mem_mapValues {K V : Type} [DecidableEq K] (d : PyDict K V)
    (f : V → V) (k : K) (v : V) (h : (k, v) ∈ d.mapValues f) :
    ∃ w, (k, w) ∈ d ∧ v = f w := by
  obtain ⟨⟨a, b⟩, hmem, heq⟩ :=
    List.mem_map.mp (show (k, v) ∈ d.map (fun kv => (kv.1, f kv.2)) from h)
  cases heq
  exact ⟨b, hmem, rfl⟩

theorem PyDict.get?_append_single {K V : Type} [DecidableEq K]
    (d : PyDict K V) (k : K) (v : V)
    (h : d.get? k = none) : (d ++ [(k, v)]).erase k = d := by
  induction d with
  | nil => simp [PyDict.erase]
  | cons kv t ih =>
    obtain ⟨k₀, v₀⟩ := kv
    by_cases h0 : k₀ = k
    · simp [PyDict.get?, h0] at h
    · simp [PyDict.get?, h0] at h
      simp [PyDict.erase, h0, ih h]

theorem PyDict.mem_keys_of_mem {K V : Type} (d : PyDict K V) (k : K) (v : V)
    (h : (k, v) ∈ d) : k ∈ d.keys :=
  List.mem_map.mpr ⟨(k, v), h, rfl⟩

theorem PyDict.get?_eq_none_of_not_mem {K V : Type} [DecidableEq K]
    (d : PyDict K V) (k : K) (h : ∀ v, (k, v) ∉ d) : d.get? k = none := by
  induction d with
  | nil => simp [PyDict.get?]
  | cons kv t ih =>
    obtain ⟨k₀, v₀⟩ := kv
    by_cases h0 : k₀ = k
    · exact absurd (show (k, v₀) ∈ (k₀, v₀) :: t by simp [h0]) (h v₀)
    · simp only [PyDict.get?, h0, if_false]
      exact ih (fun v hv => h v (List.mem_cons_of_mem _ hv))

theorem PyDict.not_mem_erase_self {K V : Type} [DecidableEq K]
    (d : PyDict K V) (k : K) (hnd : (PyDict.keys d).Nodup) (v : V) :
    (k, v) ∉ d.erase k := by
  induction d with
  | nil => simp [PyDict.erase]
  | cons kv t ih =>
    obtain ⟨k₀, v₀⟩ := kv
    have hnd' : (k₀ ∉ PyDict.keys t) ∧ (PyDict.keys t).Nodup := by
      simpa [PyDict.keys] using hnd
    by_cases h0 : k₀ = k
    · subst h0
      simp only [PyDict.erase, if_pos rfl]
      exact fun hmem => hnd'.1 (PyDict.mem_keys_of_mem t k₀ v hmem)
    · simp only [PyDict.erase, h0, if_false, List.mem_cons, not_or]
      refine ⟨fun e => h0 (congrArg Prod.fst e).symm, ?next⟩
      case next => exact ih hnd'.2

theorem PyDict.get?_erase_self {K V : Type} [DecidableEq K] (d : PyDict K V)
    (k : K) (hnd : (PyDict.keys d).Nodup) : (d.erase k).get? k = none :=
  PyDict.get?_eq_none_of_not_mem _ _
    (fun v => PyDict.not_mem_erase_self d k hnd v)

/-! ## Helper lemmas: strings -/

theorem pyFindAux_cons_neg (pat : Str) (a : Char) (t : Str)
    (hpre : pat.isPrefixOf (a :: t) = false) :
    pyFindAux pat (a :: t) = (pyFindAux pat t).map (· + 1) := by
  simp [pyFindAux, hpre]

theorem pyRIndexAux_cons (pat : Str) (a : Char) (t : Str) :
    pyRIndexAux pat (a :: t) =
      match pyRIndexAux pat t with
      | some i => some (i + 1)
      | none => if pat.isPrefixOf (a :: t) then some 0 else none := rfl

theorem pyFind_cons_not_mem (hay pat : Str) (c : Char) (h : c ∉ hay) :
    pyFind hay (c :: pat) = none := by
  induction hay with
  | nil => simp [pyFind, pyFindAux, List.isPrefixOf]
  | cons a t ih =>
    simp only [List.mem_cons, not_or] at h
    have hpre : ((c :: pat).isPrefixOf (a :: t)) = false := by
      show (c == a && pat.isPrefixOf t) = false
      rw [beq_eq_false_iff_ne.mpr h.1]
      rfl
    simp only [pyFind] at ih
    rw [pyFind, pyFindAux_cons_neg _ _ _ hpre, ih h.2]
    rfl

theorem pyFind_single_append (pre suf : Str) (c : Char) (h : c ∉ pre) :
    pyFind (pre ++ c :: suf) [c] = some pre.length := by
  induction pre with
  | nil => simp [pyFind, pyFindAux, List.isPrefixOf]
  | cons a t ih =>
    simp only [List.mem_cons, not_or] at h
    have hpre : (([c] : Str).isPrefixOf (a :: (t ++ c :: suf))) = false := by
      show (c == a && List.isPrefixOf [] (t ++ c :: suf)) = false
      rw [beq_eq_false_iff_ne.mpr h.1]
      rfl
    simp only [pyFind] at ih
    show pyFindAux [c] (a :: (t ++ c :: suf)) = some (t.length + 1)
    rw [pyFindAux_cons_neg _ _ _ hpre, ih h.2]
    rfl

theorem pyRIndex_eq_none (hay pat : Str) (h : ¬ pat <:+: hay) :
    pyRIndex hay pat = none := by
  induction hay with
  | nil =>
    cases pat with
    | nil => exact absurd (List.infix_refl []) h
    | cons x xs => simp [pyRIndex, pyRIndexAux, List.isPrefixOf]
  | cons a t ih =>
    have h1 : ¬ pat <:+: t := fun hi => h (List.infix_cons hi)
    have h2 : (pat.isPrefixOf (a :: t)) = false := by
      by_contra hcon
      rw [Bool.not_eq_false] at hcon
      exact h (List.isPrefixOf_iff_prefix.mp hcon).isInfix
    simp only [pyRIndex] at ih
    simp only [pyRIndex, pyRIndexAux, ih h1, h2, Bool.false_eq_true, if_false]

theorem splitOnChar_not_mem (c : Char) (s : Str) (h : c ∉ s) :
    splitOnChar c s = [s] := by
  induction s with
  | nil => simp [splitOnChar]
  | cons a t ih =>
    simp only [List.mem_cons, not_or] at h
    have hne : a ≠ c := fun e => h.1 e.symm
    simp [splitOnChar, ih h.2, hne]

theorem dropWhile_eq_self_of_all (p : Char → Bool) (s : Str)
    (h : ∀ x ∈ s, p x = false) : s.dropWhile p = s := by
  cases s with
  | nil => simp
  | cons a t => simp [List.dropWhile, h a (by simp)]

theorem dropTrailing_eq_self_of_all (p : Char → Bool) (s : Str)
    (h : ∀ x ∈ s, p x = false) : dropTrailing p s = s := by
  unfold dropTrailing
  rw [dropWhile_eq_self_of_all p s.reverse (fun x hx => h x (by simpa using hx))]
  simp

theorem pyStrip_eq_self_of_all (s : Str)
    (h : ∀ x ∈ s, isPySpace x = false) : pyStrip s = s := by
  unfold pyStrip pyLStrip
  rw [dropWhile_eq_self_of_all _ s h, dropTrailing_eq_self_of_all _ s h]

/-! ## C10 — no configured authentication grants access -/

/-- C10.  When a Beacon personality configures neither an OIDC block nor any
basic-auth credentials, `BeaconSetup.__init__` leaves both `_oidc_verifier`
and `_basic_headers` unset (also for an empty `basic` list), and
`BeaconSetup.authenticate` then returns `None` — access granted — for every
`Authorization` header value, including a missing one, under every possible
verifier behaviour. -/
theorem no_auth_configured_grants_access (enc : Str → Str → Str)
    (verify : Str → Bool) (header : Option Str) :
    setupAuth enc none none = .ok (none, none) ∧
    setupAuth enc none (some []) = .ok (none, none) ∧
    authenticate none none verify header = none :=
  ⟨rfl, rfl, rfl⟩

/-! ## C2 — the /g_variants unsupported-parameter guard never fires -/

/-- C2.  `find_datasets_allele_frequencies` guards with
`params is None or params.is_not_sufficient()`, but
`VariantQueryParameters.is_not_sufficient` returns `False` for EVERY
parameter record: it computes `not has_unsupported_values() and
has_sufficient_values()`, and sufficiency requires `alternateBases`, which
`has_unsupported_values` also lists.  Consequently a request that carries a
value for the unsupported `geneId` is NOT answered with an empty dictionary:
the Parquet files are read and a per-dataset result is returned (second and
third conjuncts, evaluated on a one-row environment). -/
theorem gvariants_unsupported_guard_ineffective :
    (∀ p : VariantQueryParameters, p.is_not_sufficient = false) ∧
    (find_datasets_allele_frequencies afEnv "uuid".data
      geneIdRequest).1.hasKey "DS1".data = true ∧
    (find_datasets_allele_frequencies afEnv "uuid".data geneIdRequest).2 =
      none := by
  refine ⟨?guard, by decide, by decide⟩
  case guard =>
    intro p
    unfold VariantQueryParameters.is_not_sufficient
      VariantQueryParameters.has_unsupported_values
      VariantQueryParameters.has_sufficient_values
    cases hab : p.alternateBases with
    | some s => simp [hab]
    | none =>
      cases ha : p.assemblyId with
      | none => simp
      | some a => simp [hab]

/-! ## C1 — /individuals with sufficient variant parameters -/

/-- C1 counterexample.  On the specification's scenario 3 (dataset `DS1`
with `INDIVIDUALS "2,5-7,9"`, individuals file with indices
`{2,3,4,5,6,7,9}` and sexes `{F,M,F,M,F,M,F}`, filter `sex=NCIT:C16576`,
sufficient variant parameters), `get_individuals_count` returns the EMPTY
result set — not a `ResultSet` with count 4 as the claim states. -/
theorem individuals_scenario_returns_empty :
    get_individuals_count scenarioEnv trivLib
      { hide_lower_counts := 1 } scenarioRequest = .ok emptyResultSets ∧
    get_individuals_count scenarioEnv trivLib
      { hide_lower_counts := 1 } scenarioRequest ≠
      .ok { resultSets := [mkResultSet "DS1".data 4] } := by
  constructor
  · rfl
  · decide

/-! ## C4 — censoring -/

/-- C4 counterexample.  With `hideLowerCounts = 5`, an /individuals request
WITHOUT variant parameters (sex filter only) against a dataset in which 3
individuals match produces a `ResultSet` with `resultsCount = 3 < 5`: the
no-variant search branch never calls `censor_count`. -/
theorem no_variant_branch_uncensored :
    get_individuals_count censorEnv trivLib
      { hide_lower_counts := 5 } noVariantRequest =
      .ok { resultSets := [mkResultSet "DS1".data 3] } ∧
    (mkResultSet "DS1".data 3).resultsCount <
      (BeaconSetup.mk 5).hide_lower_counts := by
  constructor
  · rfl
  · decide

/-! ## C5 — the catalog invariant -/

/-- C5 counterexample.  Re-adding an already-registered dataset with a
missing `catalog_id` breaks the invariant: `add_dataset` stores the new
props and returns early, leaving the dataset in its old catalog list while
`datasets[id].catalog_id` is no longer that catalog. -/
theorem catalog_invariant_broken_by_missing_catalog_id :
    catalogInvB (applyOps (initRegistry [("c".data, catC)])
      [.addDataset "d".data (mkProps (some "c".data))]) = true ∧
    catalogInvB (applyOps (initRegistry [("c".data, catC)])
      [.addDataset "d".data (mkProps (some "c".data)),
       .addDataset "d".data (mkProps none)]) = false := by
  constructor
  · rfl
  · rfl

/-! ## C6 — `remove_parquet` -/

/-- C6 counterexample.  In a registry where `DS1` holds one allele-frequency
file under the aggregated personality and an `individuals.parquet` under the
sensitive personality, `remove_parquet` of the allele-frequency file empties
the aggregated dataset and then `remove_beacon_dataset` strips `DS1` from
BOTH personalities: the sensitive `BeaconData` — which still holds a file —
changes, contradicting the claim that the other personality is left
unchanged. -/
theorem remove_parquet_other_personality_changed :
    (regFull.remove_parquet "DS1".data afPath).2 = none ∧
    (regFull.remove_parquet "DS1".data afPath).1.sensitive_beacon ≠
      regFull.sensitive_beacon ∧
    (regFull.remove_parquet "DS1".data afPath).1.sensitive_beacon =
      { assemblies := [(.GRCh37, [])] } := by
  refine ⟨rfl, by decide, rfl⟩

/-! ## C7 — GET filter parsing -/

/-- C7 counterexample.  For the two-character operator `<=` the claim fails:
`parse_filters` scans operators in enumeration order and takes
`value = item[pos+1:]`, so `ab<=c` parses with operator `=` (found at
position 3 > 1), id `ab<` and value `c` — not `{id: "ab", operator: "<=",
value: "c"}`. -/
theorem parse_filters_two_char_op_mangled :
    parse_filters (some "ab<=c".data) =
      some [mkQueryFilter "ab<".data (some .EQUAL) (some "c".data) none] ∧
    parse_filters (some "ab<=c".data) ≠
      some [mkQueryFilter "ab".data (some .LESS_OR_EQUAL) (some "c".data)
        none] := by
  refine ⟨by decide, by decide⟩

/-! ## C8 — the OIDC LRU cache TTL -/

/-- C8 counterexample.  A token cached at `t0 = 0` with TTL 60 is still
served FROM THE CACHE at `t = t0 + 60` (the code tests
`time.time() - ts <= valid_secs`), even with an oracle whose re-validation
would fail; re-validation happens only strictly after the boundary.  The
claim's `t ≥ t0 + T` re-validation bound is off by the boundary point. -/
theorem lru_boundary_returns_cached :
    (OidcVerifier.verify cachedVerifierState failingOracle longToken
      60).map Prod.fst = .ok true ∧
    (OidcVerifier.verify cachedVerifierState failingOracle longToken
      61).map Prod.fst = .ok false := by
  refine ⟨rfl, rfl⟩

/-! ## C9 — `add_parquet` chr-group rejection -/

/-- C9 counterexample.  For a recognised prefix whose filename carries no
`chr` at all (`allele-freq-foo.parquet`), `add_parquet` does NOT return
normally: `str.rindex` raises `ValueError`.  And for a filename whose
chr-group shape is merely malformed (`allele-freq-chr.parquet`) the
registry IS modified: `_resolve_beacon_dataset` has already materialised an
empty `BeaconDataset` before the chr-group check fails. -/
theorem add_parquet_no_chr_raises :
    ((initRegistry []).add_parquet "DS1".data .GRCh37
      ["data".data, "DS1".data, "GRCh37".data,
       "allele-freq-foo.parquet".data]).2 =
      some "ValueError: substring not found".data ∧
    ((initRegistry []).add_parquet "DS1".data .GRCh37
      ["data".data, "DS1".data, "GRCh37".data,
       "allele-freq-chr.parquet".data]).2 = none ∧
    ((initRegistry []).add_parquet "DS1".data .GRCh37
      ["data".data, "DS1".data, "GRCh37".data,
       "allele-freq-chr.parquet".data]).1 ≠ initRegistry [] := by
  refine ⟨rfl, rfl, by decide⟩

/-! ## C3 — metadata removal -/

/-- C3 counterexample.  In a registry where `DS1` has Beacon-side entries,
the monitor's metadata-removal handler changes the sensitive `BeaconData`:
it is NOT the `purge_beacon=false` removal the claim describes. -/
theorem metadata_removal_changes_beacon :
    (onRemovedFile dataDir regFull metaPath).1.sensitive_beacon ≠
      regFull.sensitive_beacon ∧
    (onRemovedFile dataDir regFull metaPath).1.aggregated_beacon ≠
      regFull.aggregated_beacon := by
  refine ⟨by decide, by decide⟩

/-- Sufficiency implies the "unsupported" flag: `has_sufficient_values`
requires `alternateBases`, which `has_unsupported_values` lists. -/
theorem sufficient_implies_unsupported (p : VariantQueryParameters)
    (h : p.has_sufficient_values = true) :
    p.has_unsupported_values = true := by
  unfold VariantQueryParameters.has_sufficient_values at h
  unfold VariantQueryParameters.has_unsupported_values
  cases ha : p.assemblyId with
  | none => rw [ha] at h; exact absurd h (by simp)
  | some a =>
    rw [ha] at h
    simp only [Bool.and_eq_true] at h
    simp [h.1.2]

/-- C1 amended.  For every /individuals request whose variant parameters
resolve and are sufficient, `get_individuals_count` returns the EMPTY
result set: the guard at `individuals.py:132` fires because
`has_unsupported_values` treats the (required) `alternateBases` as
unsupported, so the two-stage per-dataset search is unreachable. -/
theorem individuals_sufficient_params_empty (env : DataEnv) (lib : IsoLib)
    (setup : BeaconSetup) (req : BeaconRequest) (p : VariantQueryParameters)
    (hres : resolve_variant_filter req = some p)
    (hsuf : p.has_sufficient_values = true) :
    get_individuals_count env lib setup req = .ok emptyResultSets := by
  have hunsup := sufficient_implies_unsupported p hsuf
  unfold get_individuals_count
  simp only [hres, hsuf, hunsup, Bool.not_true, Bool.false_eq_true, if_false,
    if_true, ite_self]

/-- C1 amended, witness: the scenario-3 request. -/
theorem individuals_sufficient_params_empty_witness :
    resolve_variant_filter scenarioRequest = some scenarioParams ∧
    get_individuals_count scenarioEnv trivLib { hide_lower_counts := 5 }
      scenarioRequest = .ok emptyResultSets :=
  ⟨by decide,
   individuals_sufficient_params_empty scenarioEnv trivLib
     { hide_lower_counts := 5 } scenarioRequest scenarioParams (by decide)
     (by decide)⟩

/-- C3 amended.  Handling the removal of a dataset's `metadata.yaml` calls
`remove_dataset(id, also_beacon_data=True)`: it deletes the dataset from
`fdp.datasets` and from every catalog list AND removes the dataset from
every assembly list of BOTH `BeaconData` structures (and forgets recorded
issues for the path); the Beacon side is NOT left unchanged. -/
theorem metadata_removal_purges_beacon (reg : DataRegistry) (dir : Path)
    (id : Str) :
    onRemovedFile dir reg (dir ++ [id, "metadata.yaml".data]) =
      ({ fdp :=
           { catalogs := reg.fdp.catalogs
             datasets := reg.fdp.datasets.erase id
             catalog_datasets := reg.fdp.catalog_datasets.mapValues
               (fun ids => ids.erase id) }
         aggregated_beacon := purgeDatasetId reg.aggregated_beacon id
         sensitive_beacon := purgeDatasetId reg.sensitive_beacon id
         problematic_files := reg.problematic_files.erase
           (dir ++ [id, "metadata.yaml".data]) }, none) := by
  have hsplit : dir ++ [id, "metadata.yaml".data] =
      (dir ++ [id]) ++ ["metadata.yaml".data] := by simp
  have hbase : pathBase (dir ++ [id, "metadata.yaml".data]) =
      "metadata.yaml".data := by
    rw [hsplit]; unfold pathBase; rw [List.getLast?_concat]; rfl
  have hdir : pathDir (dir ++ [id, "metadata.yaml".data]) = dir ++ [id] := by
    rw [hsplit]; unfold pathDir; rw [List.dropLast_concat]
  have hbase2 : pathBase (dir ++ [id]) = id := by
    unfold pathBase; rw [List.getLast?_concat]; rfl
  have hdir2 : pathDir (dir ++ [id]) = dir := List.dropLast_concat ..
  unfold onRemovedFile
  rw [hbase, if_pos rfl]
  unfold onRemovedMetadata resolveDataset
  dsimp only
  rw [hdir, hdir2, hbase2, if_pos rfl]
  unfold DataRegistry.forget_issues_with DataRegistry.remove_dataset
  simp only [Bool.not_true, Bool.false_eq_true, if_false]

/-- C9 amended.  For a recognised, non-`individuals.parquet` basename:
if the filename contains no `chr` at all, `add_parquet` raises `ValueError`
out of `str.rindex` (after `_resolve_beacon_dataset` has already ensured
the — possibly fresh and empty — `BeaconDataset`); if the filename contains
`chr` but the chr-group shape check fails, `add_parquet` returns normally
and the only registry modification is that same ensure step; in neither
case is a file entry added. -/
theorem add_parquet_bad_chr_group (reg : DataRegistry) (dataset_id : Str)
    (asm : BeaconAssembly) (file_path : Path) (pers : Personality)
    (hroute : routeFilename (pathBase file_path) = some pers)
    (hnotind : pathBase file_path ≠ "individuals.parquet".data) :
    (¬ ("chr".data <:+: pathBase file_path) →
      reg.add_parquet dataset_id asm file_path =
        (reg.setBeacon pers
          (ensureBeaconDataset (reg.beacon pers) asm dataset_id),
         some "ValueError: substring not found".data)) ∧
    (resolve_chr_group (pathBase file_path) = .ok none →
      reg.add_parquet dataset_id asm file_path =
        (reg.setBeacon pers
          (ensureBeaconDataset (reg.beacon pers) asm dataset_id), none)) := by
  constructor
  · intro hchr
    have hres : resolve_chr_group (pathBase file_path) =
        .error "ValueError: substring not found".data := by
      unfold resolve_chr_group
      rw [pyRIndex_eq_none _ _ hchr]
    simp only [DataRegistry.add_parquet, hroute, if_neg hnotind, hres]
  · intro hok
    simp only [DataRegistry.add_parquet, hroute, if_neg hnotind, hok]

/-- C9 amended, witness: a no-`chr` filename raises; a malformed chr-group
filename returns normally with only the ensure-step modification. -/
theorem add_parquet_bad_chr_group_witness :
    ((initRegistry []).add_parquet "DS1".data .GRCh37
      ["data".data, "DS1".data, "GRCh37".data,
       "allele-freq-foo.parquet".data] =
      ((initRegistry []).setBeacon .aggregated
        (ensureBeaconDataset ((initRegistry []).beacon .aggregated) .GRCh37
          "DS1".data),
       some "ValueError: substring not found".data)) ∧
    ((initRegistry []).add_parquet "DS1".data .GRCh37
      ["data".data, "DS1".data, "GRCh37".data,
       "allele-freq-chr.parquet".data] =
      ((initRegistry []).setBeacon .aggregated
        (ensureBeaconDataset ((initRegistry []).beacon .aggregated) .GRCh37
          "DS1".data), none)) :=
  ⟨(add_parquet_bad_chr_group (initRegistry []) "DS1".data .GRCh37
      ["data".data, "DS1".data, "GRCh37".data,
       "allele-freq-foo.parquet".data] .aggregated (by decide) (by decide)).1
    (by decide),
   (add_parquet_bad_chr_group (initRegistry []) "DS1".data .GRCh37
      ["data".data, "DS1".data, "GRCh37".data,
       "allele-freq-chr.parquet".data] .aggregated (by decide) (by decide)).2
    (by decide)⟩

/-- A count that survives `censor_count` is at least the threshold. -/
theorem censor_count_le (setup : BeaconSetup) (cnt : Option Nat) (c : Nat)
    (h : setup.censor_count cnt = some c) : setup.hide_lower_counts ≤ c := by
  unfold BeaconSetup.censor_count at h
  cases cnt with
  | none => simp at h
  | some c' =>
    by_cases hlt : c' < setup.hide_lower_counts
    · simp [hlt] at h
    · simp [hlt] at h
      omega

/-- Every result the variant-branch loop accumulates passes the censor. -/
theorem grfvLoop_all_counts_ge (env : DataEnv) (lib : IsoLib)
    (setup : BeaconSetup) (params : VariantQueryParameters)
    (filters : IndividualFilter) (skip limit : Nat)
    (entries : List (Str × (Path × Option Path))) (mc : Nat)
    (acc : List ResultSet)
    (hacc : ∀ r ∈ acc, setup.hide_lower_counts ≤ r.resultsCount)
    (sets : ResultSets)
    (h1 : grfvLoop env lib setup params filters skip limit entries mc acc =
      .ok sets) :
    ∀ rs ∈ sets.resultSets, setup.hide_lower_counts ≤ rs.resultsCount := by
  induction entries generalizing mc acc with
  | nil =>
    unfold grfvLoop at h1
    cases h1
    exact hacc
  | cons e rest ih =>
    obtain ⟨did, files⟩ := e
    unfold grfvLoop at h1
    cases hfe : filter_individuals_by_variant env lib params filters files.2
        files.1 with
    | error msg => rw [hfe] at h1; cases h1
    | ok cnt =>
      rw [hfe] at h1
      dsimp only at h1
      cases hc : setup.censor_count cnt with
      | none => rw [hc] at h1; exact ih mc acc hacc h1
      | some c =>
        rw [hc] at h1
        dsimp only at h1
        have hle := censor_count_le setup cnt c hc
        have hacc' : ∀ r ∈ acc ++ [mkResultSet did c],
            setup.hide_lower_counts ≤ r.resultsCount := by
          intro r hr
          rcases List.mem_append.mp hr with hr | hr
          · exact hacc r hr
          · simp at hr
            subst hr
            simpa [mkResultSet] using hle
        by_cases hskip : mc + 1 ≤ skip
        · rw [if_pos hskip] at h1
          exact ih (mc + 1) acc hacc h1
        · rw [if_neg hskip] at h1
          by_cases hlim : (acc ++ [mkResultSet did c]).length ≥ limit
          · rw [if_pos hlim] at h1
            cases h1
            exact hacc'
          · rw [if_neg hlim] at h1
            exact ih (mc + 1) _ hacc' h1

/-- C4 amended.  Censoring is applied only in the variant-parameter search
branch: every `ResultSet` that `get_results_from_variants` emits has
`resultsCount ≥ hideLowerCounts`.  In the branch without variant parameters
(`get_results_from_individuals_parquet`) `censor_count` is never called, so
counts in `1 ≤ count < hideLowerCounts` do appear in /individuals responses
(see the counterexample). -/
theorem variants_branch_censors (env : DataEnv) (lib : IsoLib)
    (setup : BeaconSetup) (params : VariantQueryParameters)
    (filters : IndividualFilter) (skip limit : Nat) (sets : ResultSets)
    (rs : ResultSet)
    (h1 : get_results_from_variants env lib setup params filters skip limit =
      .ok sets)
    (h2 : rs ∈ sets.resultSets) :
    setup.hide_lower_counts ≤ rs.resultsCount := by
  unfold get_results_from_variants at h1
  cases hpa : parseAssembly (pyStrOpt params.assemblyId) with
  | none => rw [hpa] at h1; cases h1
  | some asm =>
    rw [hpa] at h1
    dsimp only at h1
    exact grfvLoop_all_counts_ge env lib setup params filters skip limit _ 0
      [] (by intro r hr; cases hr) sets h1 rs h2

/-- C4 amended, witness: the variant branch on scenario 3's data emits
count 3, which passes the default threshold 1. -/
theorem variants_branch_censors_witness :
    get_results_from_variants scenarioEnv trivLib { hide_lower_counts := 1 }
      scenarioParams (mkIndividualFilter (some "NCIT:C16576".data) none none)
      0 10 = .ok { resultSets := [mkResultSet "DS1".data 3] } ∧
    (BeaconSetup.mk 1).hide_lower_counts ≤
      (mkResultSet "DS1".data 3).resultsCount :=
  ⟨by rfl,
   variants_branch_censors scenarioEnv trivLib { hide_lower_counts := 1 }
     scenarioParams (mkIndividualFilter (some "NCIT:C16576".data) none none)
     0 10 { resultSets := [mkResultSet "DS1".data 3] }
     (mkResultSet "DS1".data 3) (by rfl) (by decide)⟩

/-- C8 amended.  For a cached token (length > 100, unique cache keys): a
lookup at any `now` with `now - t0 ≤ T` returns the stored outcome without
consulting the decode/visa machinery at all (the oracle `o` is arbitrary),
and a lookup with `now - t0 > T` behaves exactly as if the entry had never
been cached — the token is re-validated.  The boundary `now = t0 + T` is
on the CACHED side (the code tests `time.time() - ts <= valid_secs`),
which is where the claim's `t ≥ t0 + T` formulation fails. -/
theorem lru_ttl_boundary (st : OidcVerifierState) (o : JwtOracle) (tok : Str)
    (v : Bool) (t0 now : Int)
    (hlen : 100 < tok.length)
    (hnd : (PyDict.keys st.lru.data).Nodup)
    (hget : st.lru.data.get? tok = some (v, t0)) :
    (now - t0 ≤ st.lru.valid_secs →
      (OidcVerifier.verify st o tok now).map Prod.fst = .ok v) ∧
    (st.lru.valid_secs < now - t0 →
      OidcVerifier.verify st o tok now =
        OidcVerifier.verify
          { st with lru := { st.lru with data := st.lru.data.erase tok } } o
          tok now) := by
  have hlen' : ¬ tok.length ≤ 100 := by omega
  constructor
  · intro hfresh
    unfold OidcVerifier.verify LRUCache.get
    rw [if_neg hlen', hget]
    dsimp only
    rw [if_pos hfresh]
    rfl
  · intro hexp
    have hne : ¬ now - t0 ≤ st.lru.valid_secs := by omega
    have hkeynone : (st.lru.data.erase tok).get? tok = none :=
      PyDict.get?_erase_self _ _ hnd
    have hmove : (odMoveToEnd st.lru.data tok).erase tok =
        st.lru.data.erase tok := by
      unfold odMoveToEnd
      rw [hget]
      exact PyDict.get?_append_single _ _ _ hkeynone
    unfold OidcVerifier.verify LRUCache.get
    rw [if_neg hlen']
    rw [if_neg hlen']
    rw [hget, hkeynone]
    dsimp only
    rw [if_neg hne, hmove]

/-- C8 amended, witness: a fresh lookup at `now = 30` returns the cached
`true`; an expired lookup at `now = 100` equals the never-cached run. -/
theorem lru_ttl_boundary_witness :
    ((OidcVerifier.verify cachedVerifierState failingOracle longToken
      30).map Prod.fst = .ok true) ∧
    (OidcVerifier.verify cachedVerifierState failingOracle longToken 100 =
      OidcVerifier.verify
        { cachedVerifierState with
          lru := { cachedVerifierState.lru with
                   data := cachedVerifierState.lru.data.erase longToken } }
        failingOracle longToken 100) :=
  ⟨(lru_ttl_boundary cachedVerifierState failingOracle longToken true 0 30
      (by decide) (by decide) (by decide)).1 (by decide),
   (lru_ttl_boundary cachedVerifierState failingOracle longToken true 0 100
      (by decide) (by decide) (by decide)).2 (by decide)⟩

/-! ## C5 — catalog invariant preservation -/

theorem catalogInvB_eq_true_iff (reg : DataRegistry) :
    catalogInvB reg = true ↔ CatalogInvP reg := by
  unfold catalogInvB CatalogInvP
  rw [List.all_eq_true]
  constructor
  · intro h c ids hmem id hid
    have h2 := List.all_eq_true.mp (h (c, ids) hmem) id hid
    cases hg : reg.fdp.datasets.get? id with
    | none => rw [hg] at h2; simp at h2
    | some p =>
      rw [hg] at h2
      simp at h2
      exact ⟨p, rfl, h2⟩
  · intro h x hx
    rw [List.all_eq_true]
    intro id hid
    obtain ⟨p, hp1, hp2⟩ := h x.1 x.2 (by rwa [Prod.mk.eta]) id hid
    rw [hp1]
    simp [hp2]

/-- Membership in the catalog map after `add_dataset`'s list surgery. -/
theorem catalog_update_mem (cds cds1 : PyDict Str (List Str)) (id c c' : Str)
    (ids' : List Str)
    (hcds1 : cds1 =
      (if (PyDict.mapValues (fun ids => ids.erase id) cds).hasKey c
       then PyDict.mapValues (fun ids => ids.erase id) cds
       else (PyDict.mapValues (fun ids => ids.erase id) cds).set c []))
    (hmem : (c', ids') ∈ cds1.set c (((cds1.get? c).getD []) ++ [id])) :
    (c' = c ∧ ids' = ((cds1.get? c).getD []) ++ [id]) ∨
    (∃ orig, (c', orig) ∈ cds ∧ ids' = orig.erase id) ∨ ids' = [] := by
  rcases PyDict.mem_set _ _ _ _ _ hmem with ⟨h1, h2⟩ | hmem1
  · exact Or.inl ⟨h1, h2⟩
  · subst hcds1
    by_cases hk : (PyDict.mapValues (fun ids => ids.erase id) cds).hasKey c
    · rw [if_pos hk] at hmem1
      obtain ⟨orig, ho1, ho2⟩ := PyDict.mem_mapValues _ _ _ _ hmem1
      exact Or.inr (Or.inl ⟨orig, ho1, ho2⟩)
    · rw [if_neg hk] at hmem1
      rcases PyDict.mem_set _ _ _ _ _ hmem1 with ⟨h1, h2⟩ | hmem2
      · exact Or.inr (Or.inr h2)
      · obtain ⟨orig, ho1, ho2⟩ := PyDict.mem_mapValues _ _ _ _ hmem2
        exact Or.inr (Or.inl ⟨orig, ho1, ho2⟩)

/-- The base list `add_dataset` appends the id to. -/
theorem catalog_update_base (cds cds1 : PyDict Str (List Str)) (id c : Str)
    (hcds1 : cds1 =
      (if (PyDict.mapValues (fun ids => ids.erase id) cds).hasKey c
       then PyDict.mapValues (fun ids => ids.erase id) cds
       else (PyDict.mapValues (fun ids => ids.erase id) cds).set c [])) :
    (cds1.get? c).getD [] = [] ∨
    ∃ orig, (c, orig) ∈ cds ∧ (cds1.get? c).getD [] = orig.erase id := by
  subst hcds1
  by_cases hk : (PyDict.mapValues (fun ids => ids.erase id) cds).hasKey c
  · rw [if_pos hk]
    cases hg : cds.get? c with
    | none =>
      exfalso
      unfold PyDict.hasKey at hk
      rw [PyDict.get?_mapValues, hg] at hk
      simp at hk
    | some orig =>
      right
      refine ⟨orig, PyDict.get?_mem _ _ _ hg, ?val⟩
      case val => rw [PyDict.get?_mapValues, hg]; rfl
  · rw [if_neg hk, PyDict.get?_set_self]
    left
    rfl

/-- `add_dataset` with a present catalog id preserves both invariants. -/
theorem add_dataset_preserves (reg : DataRegistry) (id : Str)
    (props : FdpDataset) (c : Str) (hc : props.catalog_id = some c)
    (hinv : CatalogInvP reg) (hnd : ListsNodupP reg) :
    CatalogInvP (reg.add_dataset id props) ∧
    ListsNodupP (reg.add_dataset id props) := by
  have heq : reg.add_dataset id props =
      { reg with fdp :=
          { catalogs := reg.fdp.catalogs
            datasets := reg.fdp.datasets.set id props
            catalog_datasets :=
              (if (PyDict.mapValues (fun ids => ids.erase id)
                    reg.fdp.catalog_datasets).hasKey c
               then PyDict.mapValues (fun ids => ids.erase id)
                 reg.fdp.catalog_datasets
               else (PyDict.mapValues (fun ids => ids.erase id)
                 reg.fdp.catalog_datasets).set c []).set c
                ((((if (PyDict.mapValues (fun ids => ids.erase id)
                        reg.fdp.catalog_datasets).hasKey c
                    then PyDict.mapValues (fun ids => ids.erase id)
                      reg.fdp.catalog_datasets
                    else (PyDict.mapValues (fun ids => ids.erase id)
                      reg.fdp.catalog_datasets).set c []).get? c).getD []) ++
                  [id]) } } := by
    unfold DataRegistry.add_dataset
    rw [hc]
  rw [heq]
  constructor
  · intro c' ids' hmem id' hid'
    rcases catalog_update_mem reg.fdp.catalog_datasets _ id c c' ids' rfl
        hmem with ⟨hc', hids'⟩ | ⟨orig, ho1, ho2⟩ | hnil
    · subst hids'
      by_cases hideq : id' = id
      · subst hideq
        exact ⟨props, PyDict.get?_set_self _ _ _, by rw [hc']; exact hc⟩
      · have hin : id' ∈
            (((if (PyDict.mapValues (fun ids => ids.erase id)
                  reg.fdp.catalog_datasets).hasKey c
               then PyDict.mapValues (fun ids => ids.erase id)
                 reg.fdp.catalog_datasets
               else (PyDict.mapValues (fun ids => ids.erase id)
                 reg.fdp.catalog_datasets).set c []).get? c).getD []) := by
          rcases List.mem_append.mp hid' with h | h
          · exact h
          · simp at h
            exact absurd h hideq
        rcases catalog_update_base reg.fdp.catalog_datasets _ id c rfl with
          hb | ⟨orig, ho1, ho2⟩
        · rw [hb] at hin
          cases hin
        · rw [ho2] at hin
          obtain ⟨p, hp1, hp2⟩ :=
            hinv c orig ho1 id' (List.mem_of_mem_erase hin)
          refine ⟨p, by rw [PyDict.get?_set_ne _ _ _ _ hideq, hp1], ?cat⟩
          case cat => rw [hc']; exact hp2
    · by_cases hideq : id' = id
      · subst hideq
        rw [ho2] at hid'
        exact absurd hid' (hnd c' orig ho1).not_mem_erase
      · rw [ho2] at hid'
        obtain ⟨p, hp1, hp2⟩ :=
          hinv c' orig ho1 id' (List.mem_of_mem_erase hid')
        exact ⟨p, by rw [PyDict.get?_set_ne _ _ _ _ hideq, hp1], hp2⟩
    · subst hnil
      cases hid'
  · intro c' ids' hmem
    rcases catalog_update_mem reg.fdp.catalog_datasets _ id c c' ids' rfl
        hmem with ⟨hc', hids'⟩ | ⟨orig, ho1, ho2⟩ | hnil
    · subst hids'
      rcases catalog_update_base reg.fdp.catalog_datasets _ id c rfl with
        hb | ⟨orig, ho1, ho2⟩
      · rw [hb]
        simp
      · rw [ho2]
        have hno := hnd c orig ho1
        rw [List.nodup_append]
        refine ⟨hno.erase id, List.nodup_singleton id, ?disj⟩
        case disj =>
          intro a ha hb
          simp at hb
          subst hb
          exact hno.not_mem_erase ha
    · rw [ho2]
      exact (hnd c' orig ho1).erase id
    · rw [hnil]
      exact List.nodup_nil

/-- `remove_dataset` preserves both invariants (for either purge flag). -/
theorem remove_dataset_preserves (reg : DataRegistry) (id : Str)
    (purge : Bool) (hinv : CatalogInvP reg) (hnd : ListsNodupP reg) :
    CatalogInvP (reg.remove_dataset id purge) ∧
    ListsNodupP (reg.remove_dataset id purge) := by
  have hfdp : (reg.remove_dataset id purge).fdp =
      { catalogs := reg.fdp.catalogs
        datasets := reg.fdp.datasets.erase id
        catalog_datasets := PyDict.mapValues (fun ids => ids.erase id)
          reg.fdp.catalog_datasets } := by
    unfold DataRegistry.remove_dataset
    cases purge <;> rfl
  constructor
  · intro c' ids' hmem id' hid'
    rw [hfdp] at hmem ⊢
    dsimp only at hmem ⊢
    obtain ⟨orig, ho1, ho2⟩ := PyDict.mem_mapValues _ _ _ _ hmem
    subst ho2
    have hne : id' ≠ id :=
      fun e => (hnd c' orig ho1).not_mem_erase (e ▸ hid')
    obtain ⟨p, hp1, hp2⟩ := hinv c' orig ho1 id' (List.mem_of_mem_erase hid')
    exact ⟨p, by rw [PyDict.get?_erase_ne _ _ _ hne, hp1], hp2⟩
  · intro c' ids' hmem
    rw [hfdp] at hmem
    dsimp only at hmem
    obtain ⟨orig, ho1, ho2⟩ := PyDict.mem_mapValues _ _ _ _ hmem
    subst ho2
    exact (hnd c' orig ho1).erase id

/-- Folding catalog-id-preserving operations keeps both invariants. -/
theorem applyOps_preserves (ops : List RegOp) (reg : DataRegistry)
    (hops : opsKeepCatalogId ops = true)
    (hinv : CatalogInvP reg) (hnd : ListsNodupP reg) :
    CatalogInvP (applyOps reg ops) ∧ ListsNodupP (applyOps reg ops) := by
  induction ops generalizing reg with
  | nil => exact ⟨hinv, hnd⟩
  | cons op rest ih =>
    rw [opsKeepCatalogId, List.all_cons, Bool.and_eq_true] at hops
    have hstep : CatalogInvP (applyOp reg op) ∧
        ListsNodupP (applyOp reg op) := by
      cases op with
      | addDataset did props =>
        obtain ⟨c, hc⟩ := Option.isSome_iff_exists.mp (by simpa using hops.1)
        exact add_dataset_preserves reg did props c hc hinv hnd
      | removeDataset did purge =>
        exact remove_dataset_preserves reg did purge hinv hnd
    exact ih (applyOp reg op) (by simpa [opsKeepCatalogId] using hops.2)
      hstep.1 hstep.2

/-- The initial registry satisfies both invariants. -/
theorem init_catalog_inv (cats : PyDict Str FdpCatalog) :
    CatalogInvP (initRegistry cats) ∧ ListsNodupP (initRegistry cats) :=
  ⟨fun _ _ hmem => absurd hmem (List.not_mem_nil _),
   fun _ _ hmem => absurd hmem (List.not_mem_nil _)⟩

/-- C5 amended.  The catalog invariant holds in the initial state and is
preserved by `remove_dataset` and by every `add_dataset` whose props carry a
catalog id; re-adding a dataset with a MISSING catalog id can break it (the
dataset keeps its old catalog-list membership while `datasets[id]` no longer
points at that catalog — see the counterexample). -/
theorem catalog_invariant_reachable (cats : PyDict Str FdpCatalog)
    (ops : List RegOp) (hops : opsKeepCatalogId ops = true) :
    catalogInvB (applyOps (initRegistry cats) ops) = true :=
  (catalogInvB_eq_true_iff _).mpr
    ((applyOps_preserves ops (initRegistry cats) hops
      (init_catalog_inv cats).1 (init_catalog_inv cats).2).1)

/-- C5 amended, witness: a concrete add/remove/re-add sequence. -/
theorem catalog_invariant_reachable_witness :
    opsKeepCatalogId
      [RegOp.addDataset "d".data (mkProps (some "c".data)),
       RegOp.removeDataset "d".data true,
       RegOp.addDataset "d".data (mkProps (some "c2".data))] = true ∧
    catalogInvB (applyOps (initRegistry [("c".data, catC)])
      [RegOp.addDataset "d".data (mkProps (some "c".data)),
       RegOp.removeDataset "d".data true,
       RegOp.addDataset "d".data (mkProps (some "c2".data))]) = true :=
  ⟨by decide, catalog_invariant_reachable [("c".data, catC)] _ (by decide)⟩

/-! ## C6 — `remove_parquet` frame and cross-personality effect -/

theorem personality_other_ne (p : Personality) : p.other ≠ p := by
  cases p <;> decide

theorem beacon_setBeacon (reg : DataRegistry) (p q : Personality)
    (bd : BeaconData) :
    (reg.setBeacon p bd).beacon q = if q = p then bd else reg.beacon q := by
  cases p <;> cases q <;> simp [DataRegistry.setBeacon, DataRegistry.beacon]

theorem fdp_setBeacon (reg : DataRegistry) (p : Personality)
    (bd : BeaconData) : (reg.setBeacon p bd).fdp = reg.fdp := by
  cases p <;> rfl

theorem problematic_setBeacon (reg : DataRegistry) (p : Personality)
    (bd : BeaconData) :
    (reg.setBeacon p bd).problematic_files = reg.problematic_files := by
  cases p <;> rfl

theorem fdp_remove_beacon (reg : DataRegistry) (id : Str)
    (asm : BeaconAssembly) :
    (reg.remove_beacon_dataset id asm).fdp = reg.fdp := rfl

theorem problematic_remove_beacon (reg : DataRegistry) (id : Str)
    (asm : BeaconAssembly) :
    (reg.remove_beacon_dataset id asm).problematic_files =
      reg.problematic_files := rfl

theorem beacon_remove_beacon (reg : DataRegistry) (id : Str)
    (asm : BeaconAssembly) (q : Personality) :
    (reg.remove_beacon_dataset id asm).beacon q =
      removeBeaconUpd id asm (reg.beacon q) := by
  cases q <;> rfl

theorem removeBeaconUpd_get_self (id : Str) (asm : BeaconAssembly)
    (bd : BeaconData) :
    (removeBeaconUpd id asm bd).assemblies.get? asm =
      (bd.assemblies.get? asm).map
        (fun l => l.filter (fun d => d.dataset_id ≠ id)) := by
  unfold removeBeaconUpd
  cases hg : bd.assemblies.get? asm with
  | none =>
    have hk : bd.assemblies.hasKey asm = false := by
      unfold PyDict.hasKey
      rw [hg]
      rfl
    simp [hk, hg]
  | some l =>
    have hk : bd.assemblies.hasKey asm = true := by
      unfold PyDict.hasKey
      rw [hg]
      rfl
    simp [hk, hg, PyDict.get?_set_self]

theorem removeBeaconUpd_get_ne (id : Str) (asm a' : BeaconAssembly)
    (bd : BeaconData) (h : a' ≠ asm) :
    (removeBeaconUpd id asm bd).assemblies.get? a' =
      bd.assemblies.get? a' := by
  unfold removeBeaconUpd
  by_cases hk : bd.assemblies.hasKey asm
  · simp [hk, PyDict.get?_set_ne _ _ _ _ h]
  · simp [hk]

theorem ensure_get_ne (bd : BeaconData) (asm : BeaconAssembly) (id : Str)
    (a' : BeaconAssembly) (h : a' ≠ asm) :
    (ensureBeaconDataset bd asm id).assemblies.get? a' =
      bd.assemblies.get? a' := by
  unfold ensureBeaconDataset
  by_cases hk : bd.assemblies.hasKey asm
  · simp [hk, PyDict.get?_set_ne _ _ _ _ h]
  · simp [hk, PyDict.get?_set_ne _ _ _ _ h]

theorem setBeacon_setBeacon (reg : DataRegistry) (p : Personality)
    (bd bd' : BeaconData) :
    (reg.setBeacon p bd).setBeacon p bd' = reg.setBeacon p bd' := by
  cases p <;> rfl

/-- `remove_parquet` under a well-formed path and a resolvable basename:
the state effect, factored through the ensured list, the file-entry
mutation and the emptiness test. -/
theorem remove_parquet_reduction (reg : DataRegistry) (dataset_id : Str)
    (dir : Path) (asm : BeaconAssembly) (fname : Str) (pers : Personality)
    (hroute : routeFilename fname = some pers)
    (hmut : fname = "individuals.parquet".data ∨
      (∃ g, resolve_chr_group fname = .ok (some g))) :
    reg.remove_parquet dataset_id (dir ++ [asm.str, fname]) =
      (if datasetEmptiedB (updateFirstById
            (ensuredList reg pers asm dataset_id) dataset_id
            (removeFileMutation fname)) dataset_id
       then ((reg.setBeacon pers
          { assemblies := (ensureBeaconDataset (reg.beacon pers) asm
              dataset_id).assemblies.set asm
              (updateFirstById (ensuredList reg pers asm dataset_id)
                dataset_id (removeFileMutation fname)) }).remove_beacon_dataset
          dataset_id asm, none)
       else (reg.setBeacon pers
          { assemblies := (ensureBeaconDataset (reg.beacon pers) asm
              dataset_id).assemblies.set asm
              (updateFirstById (ensuredList reg pers asm dataset_id)
                dataset_id (removeFileMutation fname)) }, none)) := by
  have hsplit : dir ++ [asm.str, fname] = (dir ++ [asm.str]) ++ [fname] := by
    simp
  have hbase : pathBase (dir ++ [asm.str, fname]) = fname := by
    rw [hsplit]
    unfold pathBase
    rw [List.getLast?_concat]
    rfl
  have hdirbase : pathBase (pathDir (dir ++ [asm.str, fname])) = asm.str := by
    rw [hsplit]
    unfold pathDir
    rw [List.dropLast_concat]
    unfold pathBase
    rw [List.getLast?_concat]
    rfl
  have hasm : parseAssembly asm.str = some asm := by cases asm <;> rfl
  have hrm : ∀ d, removeFileMutation fname d =
      (if fname = "individuals.parquet".data then
        { d with individuals_parquet := none }
      else
        match resolve_chr_group fname with
        | .ok (some chr_group) =>
          { d with chr_group_files := d.chr_group_files.erase chr_group }
        | _ => d) := fun d => rfl
  unfold DataRegistry.remove_parquet
  rw [hbase, hdirbase, hasm]
  dsimp only
  rw [hroute]
  dsimp only
  unfold ensuredList
  rcases hmut with hind | ⟨g, hg⟩
  · rw [if_pos hind]
    have hrm2 : removeFileMutation fname =
        (fun d => { d with individuals_parquet := none }) := by
      funext d
      rw [hrm d, if_pos hind]
    rw [hrm2]
    dsimp only
    cases hfb : firstById (updateFirstById
        (((ensureBeaconDataset (reg.beacon pers) asm
          dataset_id).assemblies.get? asm).getD []) dataset_id
        (fun d => { d with individuals_parquet := none })) dataset_id with
    | none =>
      have hEB : datasetEmptiedB (updateFirstById
          (((ensureBeaconDataset (reg.beacon pers) asm
            dataset_id).assemblies.get? asm).getD []) dataset_id
          (fun d => { d with individuals_parquet := none })) dataset_id =
          false := by
        unfold datasetEmptiedB
        rw [hfb]
      dsimp only
      rw [hEB]
      simp only [Bool.false_eq_true, if_false]
      rw [setBeacon_setBeacon]
    | some d =>
      have hEB : datasetEmptiedB (updateFirstById
          (((ensureBeaconDataset (reg.beacon pers) asm
            dataset_id).assemblies.get? asm).getD []) dataset_id
          (fun d => { d with individuals_parquet := none })) dataset_id =
          (d.individuals_parquet.isNone && d.chr_group_files.isEmpty) := by
        unfold datasetEmptiedB
        rw [hfb]
      dsimp only
      rw [hEB]
      by_cases hE : d.individuals_parquet = none ∧ d.chr_group_files = []
      · rw [if_pos hE, if_pos (by
          simp [Option.isNone_iff_eq_none, List.isEmpty_iff, hE.1, hE.2])]
        rw [setBeacon_setBeacon]
      · rw [if_neg hE, if_neg (by
          simp only [Bool.and_eq_true, Option.isNone_iff_eq_none,
            List.isEmpty_iff]
          exact fun hc => hE ⟨hc.1, hc.2⟩)]
        rw [setBeacon_setBeacon]
  · have hnotind : fname ≠ "individuals.parquet".data := by
      intro he
      rw [he] at hg
      have hres : resolve_chr_group "individuals.parquet".data =
          .error "ValueError: substring not found".data := by decide
      rw [hres] at hg
      cases hg
    rw [if_neg hnotind, hg]
    have hrm2 : removeFileMutation fname =
        (fun d =>
          { d with chr_group_files := d.chr_group_files.erase g }) := by
      funext d
      rw [hrm d, if_neg hnotind, hg]
    rw [hrm2]
    dsimp only
    cases hfb : firstById (updateFirstById
        (((ensureBeaconDataset (reg.beacon pers) asm
          dataset_id).assemblies.get? asm).getD []) dataset_id
        (fun d =>
          { d with chr_group_files := d.chr_group_files.erase g }))
        dataset_id with
    | none =>
      have hEB : datasetEmptiedB (updateFirstById
          (((ensureBeaconDataset (reg.beacon pers) asm
            dataset_id).assemblies.get? asm).getD []) dataset_id
          (fun d =>
            { d with chr_group_files := d.chr_group_files.erase g }))
          dataset_id = false := by
        unfold datasetEmptiedB
        rw [hfb]
      dsimp only
      rw [hEB]
      simp only [Bool.false_eq_true, if_false]
      rw [setBeacon_setBeacon]
    | some d =>
      have hEB : datasetEmptiedB (updateFirstById
          (((ensureBeaconDataset (reg.beacon pers) asm
            dataset_id).assemblies.get? asm).getD []) dataset_id
          (fun d =>
            { d with chr_group_files := d.chr_group_files.erase g }))
          dataset_id =
          (d.individuals_parquet.isNone && d.chr_group_files.isEmpty) := by
        unfold datasetEmptiedB
        rw [hfb]
      dsimp only
      rw [hEB]
      by_cases hE : d.individuals_parquet = none ∧ d.chr_group_files = []
      · rw [if_pos hE, if_pos (by
          simp [Option.isNone_iff_eq_none, List.isEmpty_iff, hE.1, hE.2])]
        rw [setBeacon_setBeacon]
      · rw [if_neg hE, if_neg (by
          simp only [Bool.and_eq_true, Option.isNone_iff_eq_none,
            List.isEmpty_iff]
          exact fun hc => hE ⟨hc.1, hc.2⟩)]
        rw [setBeacon_setBeacon]

/-- C6 amended.  For a well-formed parquet path whose basename resolves,
`remove_parquet(id, path)` returns normally and: the FDP maps and the
problematic-files map are untouched; every assembly other than the path's
is untouched in BOTH personalities; in the personality selected by the
basename, the assembly list becomes the ensured list with the file entry
removed from the first `id`-dataset — and exactly when that dataset then
holds no files, every `id`-dataset is dropped from this assembly's list in
BOTH personalities: the other personality's same-id dataset is removed as
well, even if it still holds files (see the counterexample). -/
theorem remove_parquet_effect (reg : DataRegistry) (dataset_id : Str)
    (dir : Path) (asm : BeaconAssembly) (fname : Str) (pers : Personality)
    (hroute : routeFilename fname = some pers)
    (hmut : fname = "individuals.parquet".data ∨
      (∃ g, resolve_chr_group fname = .ok (some g))) :
    (reg.remove_parquet dataset_id (dir ++ [asm.str, fname])).2 = none ∧
    (reg.remove_parquet dataset_id (dir ++ [asm.str, fname])).1.fdp =
      reg.fdp ∧
    (reg.remove_parquet dataset_id
      (dir ++ [asm.str, fname])).1.problematic_files =
      reg.problematic_files ∧
    (∀ q : Personality, ∀ a' : BeaconAssembly, a' ≠ asm →
      ((reg.remove_parquet dataset_id
        (dir ++ [asm.str, fname])).1.beacon q).assemblies.get? a' =
        (reg.beacon q).assemblies.get? a') ∧
    ((reg.remove_parquet dataset_id
      (dir ++ [asm.str, fname])).1.beacon pers).assemblies.get? asm =
      some (if datasetEmptiedB (updateFirstById
              (ensuredList reg pers asm dataset_id) dataset_id
              (removeFileMutation fname)) dataset_id
            then (updateFirstById (ensuredList reg pers asm dataset_id)
              dataset_id (removeFileMutation fname)).filter
                (fun d => d.dataset_id ≠ dataset_id)
            else updateFirstById (ensuredList reg pers asm dataset_id)
              dataset_id (removeFileMutation fname)) ∧
    ((reg.remove_parquet dataset_id
      (dir ++ [asm.str, fname])).1.beacon pers.other).assemblies.get? asm =
      (if datasetEmptiedB (updateFirstById
          (ensuredList reg pers asm dataset_id) dataset_id
          (removeFileMutation fname)) dataset_id
       then ((reg.beacon pers.other).assemblies.get? asm).map
         (fun l => l.filter (fun d => d.dataset_id ≠ dataset_id))
       else (reg.beacon pers.other).assemblies.get? asm) := by
  rw [remove_parquet_reduction reg dataset_id dir asm fname pers hroute hmut]
  by_cases hE : datasetEmptiedB (updateFirstById
      (ensuredList reg pers asm dataset_id) dataset_id
      (removeFileMutation fname)) dataset_id = true
  · rw [if_pos hE, if_pos hE, if_pos hE]
    refine ⟨rfl, ?fdp, ?prob, ?frame, ?self, ?other⟩
    case fdp => rw [fdp_remove_beacon, fdp_setBeacon]
    case prob => rw [problematic_remove_beacon, problematic_setBeacon]
    case frame =>
      intro q a' hne
      rw [beacon_remove_beacon, removeBeaconUpd_get_ne _ _ _ _ hne,
        beacon_setBeacon]
      by_cases hq : q = pers
      · rw [if_pos hq]
        dsimp only
        rw [PyDict.get?_set_ne _ _ _ _ hne, ensure_get_ne _ _ _ _ hne, hq]
      · rw [if_neg hq]
    case self =>
      rw [beacon_remove_beacon, removeBeaconUpd_get_self, beacon_setBeacon,
        if_pos rfl]
      dsimp only
      rw [PyDict.get?_set_self]
      unfold ensuredList
      rfl
    case other =>
      rw [beacon_remove_beacon, removeBeaconUpd_get_self, beacon_setBeacon,
        if_neg (personality_other_ne pers)]
  · rw [if_neg hE, if_neg hE, if_neg hE]
    refine ⟨rfl, ?fdp, ?prob, ?frame, ?self, ?other⟩
    case fdp => rw [fdp_setBeacon]
    case prob => rw [problematic_setBeacon]
    case frame =>
      intro q a' hne
      rw [beacon_setBeacon]
      by_cases hq : q = pers
      · rw [if_pos hq]
        dsimp only
        rw [PyDict.get?_set_ne _ _ _ _ hne, ensure_get_ne _ _ _ _ hne, hq]
      · rw [if_neg hq]
    case self =>
      rw [beacon_setBeacon, if_pos rfl]
      dsimp only
      rw [PyDict.get?_set_self]
    case other =>
      rw [beacon_setBeacon, if_neg (personality_other_ne pers)]

/-- C6 amended, witness: removing `DS1`'s only aggregated file. -/
theorem remove_parquet_effect_witness :
    (regFull.remove_parquet "DS1".data
      (["data".data, "DS1".data] ++
        [BeaconAssembly.GRCh37.str, "allele-freq-chr1.0.parquet".data])).2 =
      none :=
  (remove_parquet_effect regFull "DS1".data ["data".data, "DS1".data]
    .GRCh37 "allele-freq-chr1.0.parquet".data .aggregated (by decide)
    (Or.inr ⟨"1.0".data, by decide⟩)).1

/-! ## C7 — the single-character-operator filter grammar -/

theorem plainChar_not_ws (c : Char) (h : plainChar c = true) :
    isPySpace c = false := by
  unfold plainChar at h
  simp only [Bool.and_eq_true] at h
  simpa using h.1.2

theorem plain_all_not_ws (s : Str) (h : s.all plainChar = true) :
    ∀ x ∈ s, isPySpace x = false := fun x hx =>
  plainChar_not_ws x (List.all_eq_true.mp h x hx)

theorem plain_not_mem (s : Str) (h : s.all plainChar = true) (c : Char)
    (hc : plainChar c = false) : c ∉ s := fun hm => by
  have h2 := List.all_eq_true.mp h c hm
  rw [hc] at h2
  exact Bool.noConfusion h2

theorem op_char_not_in_item (idc valc : Str) (oc c : Char)
    (hid : idc.all plainChar = true) (hval : valc.all plainChar = true)
    (hplain : plainChar c = false) (hne : c ≠ oc) :
    c ∉ idc ++ oc :: valc := by
  intro hm
  rcases List.mem_append.mp hm with h | h
  · exact plain_not_mem idc hid c hplain h
  · rcases List.mem_cons.mp h with h | h
    · exact hne h
    · exact plain_not_mem valc hval c hplain h

theorem findOp_cons_none (item : Str) (op : FilterOperator)
    (rest : List FilterOperator) (h : pyFind item op.str = none) :
    findOp item (op :: rest) = findOp item rest := by
  simp only [findOp, h]

theorem findOp_cons_found (item : Str) (op : FilterOperator)
    (rest : List FilterOperator) (p : Nat)
    (h : pyFind item op.str = some p) (hp : p > 1) :
    findOp item (op :: rest) = some (op, p) := by
  unfold findOp
  rw [h]
  dsimp only
  rw [if_pos hp]

/-- The per-item parse when the operator search lands at position
`idc.length`. -/
theorem parseFilterItem_at (idc valc : Str) (oc : Char)
    (op : FilterOperator)
    (hfind : findOp (idc ++ oc :: valc) filterOperatorOrder =
      some (op, idc.length))
    (hval : valc.all plainChar = true) :
    parseFilterItem (idc ++ oc :: valc) =
      mkQueryFilter (filterIdTransform idc) (some op) (some valc) none := by
  unfold parseFilterItem
  rw [hfind]
  dsimp only
  have htake : (idc ++ oc :: valc).take idc.length = idc := List.take_left ..
  have hdrop : (idc ++ oc :: valc).drop (idc.length + 1) = valc := by
    rw [show idc ++ oc :: valc = (idc ++ [oc]) ++ valc by simp,
      show idc.length + 1 = (idc ++ [oc]).length by simp]
    exact List.drop_left ..
  rw [htake, hdrop]
  unfold pyLStrip
  rw [dropWhile_eq_self_of_all _ _ (plain_all_not_ws valc hval)]
  rfl

/-- The wrapped `parse_filters` call for a clean single item. -/
theorem parse_filters_clean_item (idc valc : Str) (oc : Char)
    (op : FilterOperator)
    (hocws : isPySpace oc = false)
    (hoccomma : oc ≠ ',')
    (hfind : findOp (idc ++ oc :: valc) filterOperatorOrder =
      some (op, idc.length))
    (hid : idc.all plainChar = true)
    (hval : valc.all plainChar = true) :
    parse_filters (some (idc ++ oc :: valc)) =
      some [mkQueryFilter (filterIdTransform idc) (some op) (some valc)
        none] := by
  have hitem_nows : ∀ x ∈ idc ++ oc :: valc, isPySpace x = false := by
    intro x hx
    rcases List.mem_append.mp hx with h | h
    · exact plain_all_not_ws idc hid x h
    · rcases List.mem_cons.mp h with h | h
      · subst h
        exact hocws
      · exact plain_all_not_ws valc hval x h
  have hitem_nocomma : ',' ∉ idc ++ oc :: valc :=
    op_char_not_in_item idc valc oc ',' hid hval (by decide)
      (fun e => hoccomma e.symm)
  have hne : idc ++ oc :: valc ≠ [] := by simp
  have hstrip : pyStrip (idc ++ oc :: valc) = idc ++ oc :: valc :=
    pyStrip_eq_self_of_all _ hitem_nows
  unfold parse_filters
  dsimp only
  rw [if_neg (by rw [hstrip]; exact hne)]
  rw [splitOnChar_not_mem ',' _ hitem_nocomma]
  simp only [List.map_cons, List.map_nil, hstrip]
  rw [show List.filter (fun x => decide (x ≠ [])) [idc ++ oc :: valc] =
      [idc ++ oc :: valc] by simp [hne]]
  rw [List.map_cons, List.map_nil,
    parseFilterItem_at idc valc oc op hfind hval]

/-- C7 amended.  For every GET filter item of the form `id<op>value` with a
SINGLE-character operator (`=`, `!`, `<`, `>`), an id of length at least 2,
and id/value free of operator characters, whitespace and commas,
`parse_filters` yields exactly one `QueryFilter` whose id is the id portion
with trailing colons dropped and then underscores replaced by colons, whose
operator is `<op>`, and whose value is the full text after the operator.
(For the two-character operators `<=`/`>=` the claim fails — see the
counterexample: the enum scan matches `=` first and mangles the id.) -/
theorem parse_filters_single_char_op (idc valc : Str) (op : FilterOperator)
    (hop : op = .EQUAL ∨ op = .NOT_EQUAL ∨ op = .LESS ∨ op = .GREATER)
    (hlen : 2 ≤ idc.length)
    (hid : idc.all plainChar = true)
    (hval : valc.all plainChar = true) :
    parse_filters (some (idc ++ op.str ++ valc)) =
      some [mkQueryFilter (filterIdTransform idc) (some op) (some valc)
        none] := by
  have hgt : idc.length > 1 := by omega
  have hord : filterOperatorOrder =
      [.EQUAL, .NOT_EQUAL, .LESS, .LESS_OR_EQUAL, .GREATER,
       .GREATER_OR_EQUAL] := rfl
  rcases hop with rfl | rfl | rfl | rfl
  · rw [show idc ++ FilterOperator.str .EQUAL ++ valc =
        idc ++ '=' :: valc by simp [FilterOperator.str]]
    have h1 : pyFind (idc ++ '=' :: valc) ['='] = some idc.length :=
      pyFind_single_append idc valc '='
        (plain_not_mem idc hid '=' (by decide))
    have hfind : findOp (idc ++ '=' :: valc) filterOperatorOrder =
        some (.EQUAL, idc.length) := by
      rw [hord, findOp_cons_found _ _ _ _ h1 hgt]
    exact parse_filters_clean_item idc valc '=' .EQUAL (by decide)
      (by decide) hfind hid hval
  · rw [show idc ++ FilterOperator.str .NOT_EQUAL ++ valc =
        idc ++ '!' :: valc by simp [FilterOperator.str]]
    have h0 : pyFind (idc ++ '!' :: valc) ['='] = none :=
      pyFind_cons_not_mem _ _ '='
        (op_char_not_in_item idc valc '!' '=' hid hval (by decide)
          (by decide))
    have h1 : pyFind (idc ++ '!' :: valc) ['!'] = some idc.length :=
      pyFind_single_append idc valc '!'
        (plain_not_mem idc hid '!' (by decide))
    have hfind : findOp (idc ++ '!' :: valc) filterOperatorOrder =
        some (.NOT_EQUAL, idc.length) := by
      rw [hord, findOp_cons_none _ _ _ h0, findOp_cons_found _ _ _ _ h1 hgt]
    exact parse_filters_clean_item idc valc '!' .NOT_EQUAL (by decide)
      (by decide) hfind hid hval
  · rw [show idc ++ FilterOperator.str .LESS ++ valc =
        idc ++ '<' :: valc by simp [FilterOperator.str]]
    have h0 : pyFind (idc ++ '<' :: valc) ['='] = none :=
      pyFind_cons_not_mem _ _ '='
        (op_char_not_in_item idc valc '<' '=' hid hval (by decide)
          (by decide))
    have h0b : pyFind (idc ++ '<' :: valc) ['!'] = none :=
      pyFind_cons_not_mem _ _ '!'
        (op_char_not_in_item idc valc '<' '!' hid hval (by decide)
          (by decide))
    have h1 : pyFind (idc ++ '<' :: valc) ['<'] = some idc.length :=
      pyFind_single_append idc valc '<'
        (plain_not_mem idc hid '<' (by decide))
    have hfind : findOp (idc ++ '<' :: valc) filterOperatorOrder =
        some (.LESS, idc.length) := by
      rw [hord, findOp_cons_none _ _ _ h0, findOp_cons_none _ _ _ h0b,
        findOp_cons_found _ _ _ _ h1 hgt]
    exact parse_filters_clean_item idc valc '<' .LESS (by decide)
      (by decide) hfind hid hval
  · rw [show idc ++ FilterOperator.str .GREATER ++ valc =
        idc ++ '>' :: valc by simp [FilterOperator.str]]
    have hnoteq : '=' ∉ idc ++ '>' :: valc :=
      op_char_not_in_item idc valc '>' '=' hid hval (by decide) (by decide)
    have hnotlt : '<' ∉ idc ++ '>' :: valc :=
      op_char_not_in_item idc valc '>' '<' hid hval (by decide) (by decide)
    have h0 : pyFind (idc ++ '>' :: valc) ['='] = none :=
      pyFind_cons_not_mem _ _ '=' hnoteq
    have h0b : pyFind (idc ++ '>' :: valc) ['!'] = none :=
      pyFind_cons_not_mem _ _ '!'
        (op_char_not_in_item idc valc '>' '!' hid hval (by decide)
          (by decide))
    have h0c : pyFind (idc ++ '>' :: valc) ['<'] = none :=
      pyFind_cons_not_mem _ _ '<' hnotlt
    have h0d : pyFind (idc ++ '>' :: valc) ['<', '='] = none :=
      pyFind_cons_not_mem _ _ '<' hnotlt
    have h1 : pyFind (idc ++ '>' :: valc) ['>'] = some idc.length :=
      pyFind_single_append idc valc '>'
        (plain_not_mem idc hid '>' (by decide))
    have hfind : findOp (idc ++ '>' :: valc) filterOperatorOrder =
        some (.GREATER, idc.length) := by
      rw [hord, findOp_cons_none _ _ _ h0, findOp_cons_none _ _ _ h0b,
        findOp_cons_none _ _ _ h0c, findOp_cons_none _ _ _ h0d,
        findOp_cons_found _ _ _ _ h1 hgt]
    exact parse_filters_clean_item idc valc '>' .GREATER (by decide)
      (by decide) hfind hid hval

/-- C7 amended, witness: the specification's scenario 5,
`filters=age_of_onset:>P40Y`. -/
theorem parse_filters_single_char_op_witness :
    parse_filters (some ("age_of_onset:".data ++
        FilterOperator.str .GREATER ++ "P40Y".data)) =
      some [mkQueryFilter (filterIdTransform "age_of_onset:".data)
        (some .GREATER) (some "P40Y".data) none] :=
  parse_filters_single_char_op "age_of_onset:".data "P40Y".data .GREATER
    (Or.inr (Or.inr (Or.inr rfl))) (by decide) (by decide) (by decide)

end MiniNode
